import Mathlib

/-!
# Emission source term of sasktran2

A shallow embedding of `src/lib/emission/emission_source.cpp`
(`sasktran2::emission::EmissionSource<NSTOKES>`).

Conventions of the embedding:

* `double` is read in two ways. The definitions named after the source compute
  in `ℚ`: what is proved about them is proved of exact arithmetic, without
  rounding and without overflow. The definitions whose name ends in `_double`
  are the same code on IEEE 754 binary64 values, every operation rounded to
  nearest with ties to even; they decide the claims whose truth turns on
  rounding or overflow.
* `int` indices are modelled by `Int`.
* The two borrowed pointers `m_los_rays` and `m_atmosphere` are modelled by
  `Option`. The source dereferences them without a check, so dereferencing a
  pointer that was never bound is undefined behaviour there; the embedding
  stops the call at that point with `Error.unbound_dependency` and writes
  nothing. What is stated about unbound components is stated on the paths that
  do not reach such a dereference.
* The accumulator is passed in and handed back: every operation returns an
  `Outcome` holding the accumulator as the call leaves it, together with the
  failure that interrupted the call, if any.
-/

set_option autoImplicit false
set_option linter.unusedVariables false

namespace sasktran2

/-- Ways in which a call can be interrupted instead of returning. -/
inductive Error where
  /-- A pointer member that was never bound is dereferenced: undefined
  behaviour in the source, which has no check and raises nothing there. -/
  | unbound_dependency
  /-- The exception `std::out_of_range` thrown by `std::vector::at`. -/
  | out_of_range
  deriving DecidableEq, Repr

/-- Modelled from the spec: the declaration of `Dual<double, dense, NSTOKES>`
(`sasktran2/dual.h`) is not among the sources. A vector `value` with one entry
per Stokes component, paired with the derivative block `deriv` holding one row
per Stokes component and one column per atmospheric-state parameter. -/
structure Dual (NSTOKES : Nat) where
  value : Fin NSTOKES → ℚ
  deriv : Fin NSTOKES → List ℚ

/-- Modelled from the spec: the declaration of `SparseODDualView`
(`sasktran2/dual.h`) is not among the sources. The precomputed attenuation
factor of one layer and its sparse derivative information, as pairs of a
parameter index and a derivative value. -/
structure SparseODDualView where
  exp_minus_od : ℚ
  deriv : List (Int × ℚ)

namespace raytracing

/-- Modelled from the spec: the declaration of the boundary descriptor of a
layer (`sasktran2/raytracing.h`) is not among the sources. Only the sparse
interpolation mapping, a sequence of pairs of a grid-point index and a weight,
is read by the emission source. -/
structure Location where
  interpolation_weights : List (Int × ℚ)

/-- Modelled from the spec: the declaration of `SphericalLayer`
(`sasktran2/raytracing.h`) is not among the sources. The fields are the ones
the emission source reads. -/
structure SphericalLayer where
  entrance : Location
  exit : Location
  layer_distance : ℚ
  od_quad_start_fraction : ℚ
  od_quad_end_fraction : ℚ

/-- Modelled from the spec: the declaration of `TracedRay`
(`sasktran2/raytracing.h`) is not among the sources. An ordered sequence of
layers and the flag telling whether the ray ends on the surface. -/
structure TracedRay where
  layers : List SphericalLayer
  ground_is_hit : Bool

end raytracing

namespace atmosphere

/-- Modelled from the spec: the declaration of the grid storage of the
atmosphere (`sasktran2/atmosphere/atmosphere.h`) is not among the sources. The
two coefficient accessors `ssa(gridIndex, wavelengthIndex)` and
`emission_source(gridIndex, wavelengthIndex)`; coefficient access is unchecked
in the source, so the accessors are total. -/
structure AtmosphereGridStorage where
  ssa : Int → Int → ℚ
  emission_source : Int → Int → ℚ

/-- Modelled from the spec: the declaration of the surface of the atmosphere
(`sasktran2/atmosphere/atmosphere.h`) is not among the sources. The surface
emission per wavelength index. -/
structure Surface where
  emission : Int → ℚ

/-- Modelled from the spec: the declaration of `Atmosphere<NSTOKES>`
(`sasktran2/atmosphere/atmosphere.h`) is not among the sources. -/
structure Atmosphere (NSTOKES : Nat) where
  storage : AtmosphereGridStorage
  surface : Surface

end atmosphere

/-- The standard call `std::vector::at` with an `int` index, as used on line
90. The index is converted to the unsigned size type, which sends a negative
`int` above every possible size, so the call throws `std::out_of_range` for a
negative index and for an index that is at least the size. -/
def vector_at {α : Type} (v : List α) (idx : Int) : Except Error α :=
  if idx < 0 then .error .out_of_range
  else
    match v.get? idx.toNat with
    | some x => .ok x
    | none => .error .out_of_range

/-! ## IEEE 754 binary64 -/

/-- A value of the type `double`: a finite number, an infinity with its sign,
or a NaN. The two zeros are not told apart: nothing in the source divides or
reads a sign. -/
inductive Double where
  | finite (q : ℚ)
  | infinite (negative : Bool)
  | nan
  deriving DecidableEq

/-- The power `2 ^ k` of an integer exponent. -/
def two_pow (k : Int) : ℚ :=
  if 0 ≤ k then ((2 ^ k.toNat : Nat) : ℚ)
  else 1 / ((2 ^ (-k).toNat : Nat) : ℚ)

/-- The integer `e` with `2 ^ e ≤ a < 2 ^ (e + 1)` for a positive `a`, found by
scaling `a` into `[1, 2)`: by `2 ^ 32` at a time while it is that far away,
then by 2 at a time. The first argument bounds the number of steps. -/
def floor_log2 : Nat → ℚ → Int
  | 0, _ => 0
  | fuel + 1, a =>
    if a < 1 / 4294967296 then floor_log2 fuel (a * 4294967296) - 32
    else if a < 1 then floor_log2 fuel (a * 2) - 1
    else if 4294967296 ≤ a then floor_log2 fuel (a / 4294967296) + 32
    else if 2 ≤ a then floor_log2 fuel (a / 2) + 1
    else 0

/-- The integer nearest to a non-negative `x`, the even one of the two when
`x` lies half-way. -/
def round_half_even (x : ℚ) : Int :=
  if x - ⌊x⌋ < 1 / 2 then ⌊x⌋
  else if 1 / 2 < x - ⌊x⌋ then ⌊x⌋ + 1
  else if ⌊x⌋ % 2 = 0 then ⌊x⌋
  else ⌊x⌋ + 1

/-- The spacing of the doubles around a positive `a`: `2 ^ (e - 52)` where
`2 ^ e ≤ a < 2 ^ (e + 1)`, which leaves 53 significant bits, and never less
than `2 ^ (-1074)`, the spacing of the subnormal numbers. -/
def spacing (a : ℚ) : ℚ :=
  two_pow (max (floor_log2 (a.num.natAbs + a.den) a - 52) (-1074))

/-- A positive `a` rounded to the nearest multiple of the spacing of the
doubles around it, ties to the even multiple. -/
def round_magnitude (a : ℚ) : ℚ :=
  (round_half_even (a / spacing a) : ℚ) * spacing a

/-- Rounding to nearest, ties to even: the double that an operation with the
exact result `q` delivers. A result that rounds to `2 ^ 1024` or beyond
overflows to the infinity of its sign. -/
def Double.round (q : ℚ) : Double :=
  if q = 0 then .finite 0
  else if q < 0 then
    if two_pow 1024 ≤ round_magnitude (-q) then .infinite true
    else .finite (-round_magnitude (-q))
  else
    if two_pow 1024 ≤ round_magnitude q then .infinite false
    else .finite (round_magnitude q)

/-- The unary minus of `double`. -/
def Double.neg : Double → Double
  | .finite q => .finite (-q)
  | .infinite negative => .infinite (!negative)
  | .nan => .nan

/-- The operator `+` of `double`: infinities of opposite signs give NaN. -/
def Double.add : Double → Double → Double
  | .nan, _ => .nan
  | _, .nan => .nan
  | .infinite s, .infinite t => if s = t then .infinite s else .nan
  | .infinite s, .finite _ => .infinite s
  | .finite _, .infinite t => .infinite t
  | .finite a, .finite b => Double.round (a + b)

/-- The operator `-` of `double`. -/
def Double.sub (a b : Double) : Double :=
  Double.add a (Double.neg b)

/-- The operator `*` of `double`: zero times an infinity gives NaN. -/
def Double.mul : Double → Double → Double
  | .nan, _ => .nan
  | _, .nan => .nan
  | .infinite s, .infinite t => .infinite (s != t)
  | .infinite s, .finite b =>
    if b = 0 then .nan else .infinite (s != decide (b < 0))
  | .finite a, .infinite t =>
    if a = 0 then .nan else .infinite (decide (a < 0) != t)
  | .finite a, .finite b => Double.round (a * b)

namespace emission

open raytracing atmosphere

/-- The members of `EmissionSource<NSTOKES>`: the two borrowed pointers, each
`none` until the corresponding binding call has been made. -/
structure EmissionSource (NSTOKES : Nat) where
  m_los_rays : Option (List TracedRay)
  m_atmosphere : Option (Atmosphere NSTOKES)

/-- The accumulator as a call leaves it, and the failure that interrupted the
call (`none` when the call returned). -/
structure Outcome (NSTOKES : Nat) where
  error : Option Error
  source : Dual NSTOKES

/-- `EmissionSource::initialize_geometry` (lines 9-14). -/
def initialize_geometry {NSTOKES : Nat} (self : EmissionSource NSTOKES)
    (los_rays : List TracedRay) : EmissionSource NSTOKES :=
  { self with m_los_rays := some los_rays }

/-- `EmissionSource::initialize_atmosphere` (lines 16-21). -/
def initialize_atmosphere {NSTOKES : Nat} (self : EmissionSource NSTOKES)
    (atmosphere : Atmosphere NSTOKES) : EmissionSource NSTOKES :=
  { self with m_atmosphere := some atmosphere }

/-- The `if constexpr (NSTOKES == 1)` block of lines 61-65 and 93-97: with one
Stokes component the increment is added to the whole array, otherwise to the
coefficient of index 0 only. -/
def add_to_source {NSTOKES : Nat} (increment : ℚ) (value : Fin NSTOKES → ℚ) :
    Fin NSTOKES → ℚ :=
  if NSTOKES = 1 then fun i => value i + increment
  else fun i => if i.val = 0 then value i + increment else value i

/-- One of the two loops of lines 39-52, started from the running sums `ssa`
and `emission`: every element dereferences `m_atmosphere` and adds the grid
value times the weight to each running sum. -/
def boundary_loop {NSTOKES : Nat} (m_atmosphere : Option (Atmosphere NSTOKES))
    (wavelidx : Int) : List (Int × ℚ) → ℚ → ℚ → Except Error (ℚ × ℚ)
  | [], ssa, emission => .ok (ssa, emission)
  | ele :: rest, ssa, emission =>
    match m_atmosphere with
    | none => .error .unbound_dependency
    | some atm =>
      boundary_loop m_atmosphere wavelidx rest
        (ssa + atm.storage.ssa ele.1 wavelidx * ele.2)
        (emission + atm.storage.emission_source ele.1 wavelidx * ele.2)

/-- `EmissionSource::integrated_source_constant` (lines 23-66). -/
def integrated_source_constant {NSTOKES : Nat} (self : EmissionSource NSTOKES)
    (wavelidx losidx layeridx wavel_threadidx threadidx : Int)
    (layer : SphericalLayer) (shell_od : SparseODDualView)
    (source : Dual NSTOKES) : Outcome NSTOKES :=
  match boundary_loop self.m_atmosphere wavelidx
      layer.entrance.interpolation_weights 0 0 with
  | .error e => ⟨some e, source⟩
  | .ok (ssa_start, emission_start) =>
    match boundary_loop self.m_atmosphere wavelidx
        layer.exit.interpolation_weights 0 0 with
    | .error e => ⟨some e, source⟩
    | .ok (ssa_end, emission_end) =>
      let source_factor1 := 1 - shell_od.exp_minus_od
      let emission_cell :=
        source_factor1 *
          ((1 - ssa_start) * emission_start * layer.od_quad_start_fraction +
            (1 - ssa_end) * emission_end * layer.od_quad_end_fraction)
      ⟨none, { source with value := add_to_source emission_cell source.value }⟩

/-- `EmissionSource::integrated_source` (lines 68-83). The constant
`MINIMUM_SHELL_SIZE_M` is defined outside the sources and is taken as a
parameter. -/
def integrated_source {NSTOKES : Nat} (MINIMUM_SHELL_SIZE_M : ℚ)
    (self : EmissionSource NSTOKES)
    (wavelidx losidx layeridx wavel_threadidx threadidx : Int)
    (layer : SphericalLayer) (shell_od : SparseODDualView)
    (source : Dual NSTOKES) : Outcome NSTOKES :=
  if layer.layer_distance < MINIMUM_SHELL_SIZE_M then
    ⟨none, source⟩
  else
    integrated_source_constant self wavelidx losidx layeridx wavel_threadidx
      threadidx layer shell_od source

/-- `EmissionSource::end_of_ray_source` (lines 85-99). -/
def end_of_ray_source {NSTOKES : Nat} (self : EmissionSource NSTOKES)
    (wavelidx losidx wavel_threadidx threadidx : Int)
    (source : Dual NSTOKES) : Outcome NSTOKES :=
  match self.m_los_rays with
  | none => ⟨some .unbound_dependency, source⟩
  | some los_rays =>
    match vector_at los_rays losidx with
    | .error e => ⟨some e, source⟩
    | .ok ray =>
      if ray.ground_is_hit then
        match self.m_atmosphere with
        | none => ⟨some .unbound_dependency, source⟩
        | some atm =>
          let emission_surface := atm.surface.emission wavelidx
          ⟨none, { source with value := add_to_source emission_surface source.value }⟩
      else
        ⟨none, source⟩

/-! ## The layer integrator on doubles

The inputs are the ones of the exact embedding, each read as the double nearest
to it, so that a representable input is read as itself. Every operation of the
source is one rounded operation; no multiplication is fused with an
addition. -/

/-- The accumulator as a call on doubles leaves it, and the failure that
interrupted the call. -/
structure DoubleOutcome (NSTOKES : Nat) where
  error : Option Error
  value : Fin NSTOKES → Double
  deriv : Fin NSTOKES → List ℚ

/-- The `if constexpr (NSTOKES == 1)` block of lines 61-65 on doubles. -/
def add_to_source_double {NSTOKES : Nat} (increment : Double)
    (value : Fin NSTOKES → ℚ) : Fin NSTOKES → Double :=
  if NSTOKES = 1 then fun i => Double.add (Double.round (value i)) increment
  else fun i =>
    if i.val = 0 then Double.add (Double.round (value i)) increment
    else Double.round (value i)

/-- One of the two loops of lines 39-52 on doubles: each `+=` rounds the
product and then the sum. -/
def boundary_loop_double {NSTOKES : Nat}
    (m_atmosphere : Option (Atmosphere NSTOKES)) (wavelidx : Int) :
    List (Int × ℚ) → Double → Double → Except Error (Double × Double)
  | [], ssa, emission => .ok (ssa, emission)
  | ele :: rest, ssa, emission =>
    match m_atmosphere with
    | none => .error .unbound_dependency
    | some atm =>
      boundary_loop_double m_atmosphere wavelidx rest
        (Double.add ssa
          (Double.mul (Double.round (atm.storage.ssa ele.1 wavelidx))
            (Double.round ele.2)))
        (Double.add emission
          (Double.mul (Double.round (atm.storage.emission_source ele.1 wavelidx))
            (Double.round ele.2)))

/-- `EmissionSource::integrated_source_constant` (lines 23-66) on doubles. -/
def integrated_source_constant_double {NSTOKES : Nat}
    (self : EmissionSource NSTOKES)
    (wavelidx losidx layeridx wavel_threadidx threadidx : Int)
    (layer : SphericalLayer) (shell_od : SparseODDualView)
    (source : Dual NSTOKES) : DoubleOutcome NSTOKES :=
  match boundary_loop_double self.m_atmosphere wavelidx
      layer.entrance.interpolation_weights (.finite 0) (.finite 0) with
  | .error e => ⟨some e, fun i => Double.round (source.value i), source.deriv⟩
  | .ok (ssa_start, emission_start) =>
    match boundary_loop_double self.m_atmosphere wavelidx
        layer.exit.interpolation_weights (.finite 0) (.finite 0) with
    | .error e => ⟨some e, fun i => Double.round (source.value i), source.deriv⟩
    | .ok (ssa_end, emission_end) =>
      let source_factor1 :=
        Double.sub (.finite 1) (Double.round shell_od.exp_minus_od)
      let emission_cell :=
        Double.mul source_factor1
          (Double.add
            (Double.mul
              (Double.mul (Double.sub (.finite 1) ssa_start) emission_start)
              (Double.round layer.od_quad_start_fraction))
            (Double.mul
              (Double.mul (Double.sub (.finite 1) ssa_end) emission_end)
              (Double.round layer.od_quad_end_fraction)))
      ⟨none, add_to_source_double emission_cell source.value, source.deriv⟩

/-- `EmissionSource::integrated_source` (lines 68-83) on doubles. -/
def integrated_source_double {NSTOKES : Nat} (MINIMUM_SHELL_SIZE_M : ℚ)
    (self : EmissionSource NSTOKES)
    (wavelidx losidx layeridx wavel_threadidx threadidx : Int)
    (layer : SphericalLayer) (shell_od : SparseODDualView)
    (source : Dual NSTOKES) : DoubleOutcome NSTOKES :=
  if layer.layer_distance < MINIMUM_SHELL_SIZE_M then
    ⟨none, fun i => Double.round (source.value i), source.deriv⟩
  else
    integrated_source_constant_double self wavelidx losidx layeridx
      wavel_threadidx threadidx layer shell_od source

/-! ## The quantities of the specification -/

/-- The boundary quantity in the words of the specification: the sum, over the
pairs (grid-point index, weight) of an interpolation mapping, of the weight
times the grid value at that index and wavelength. -/
def boundary_sum (field : Int → Int → ℚ) (wavelidx : Int)
    (weights : List (Int × ℚ)) : ℚ :=
  (weights.map (fun ele => ele.2 * field ele.1 wavelidx)).sum

/-- The bracket term of the specification:
`(1 - ssaStart)·emissionStart·odQuadStartFraction +
 (1 - ssaEnd)·emissionEnd·odQuadEndFraction`. -/
def bracket_term {NSTOKES : Nat} (atm : Atmosphere NSTOKES) (wavelidx : Int)
    (layer : SphericalLayer) : ℚ :=
  (1 - boundary_sum atm.storage.ssa wavelidx layer.entrance.interpolation_weights) *
      boundary_sum atm.storage.emission_source wavelidx
        layer.entrance.interpolation_weights *
      layer.od_quad_start_fraction +
    (1 - boundary_sum atm.storage.ssa wavelidx layer.exit.interpolation_weights) *
      boundary_sum atm.storage.emission_source wavelidx
        layer.exit.interpolation_weights *
      layer.od_quad_end_fraction

/-- The two running sums of a loop on doubles, with the atmosphere at hand. -/
def boundary_sums_double {NSTOKES : Nat} (atm : Atmosphere NSTOKES)
    (wavelidx : Int) : List (Int × ℚ) → Double → Double → Double × Double
  | [], ssa, emission => (ssa, emission)
  | ele :: rest, ssa, emission =>
    boundary_sums_double atm wavelidx rest
      (Double.add ssa
        (Double.mul (Double.round (atm.storage.ssa ele.1 wavelidx))
          (Double.round ele.2)))
      (Double.add emission
        (Double.mul (Double.round (atm.storage.emission_source ele.1 wavelidx))
          (Double.round ele.2)))

/-- The bracket term as lines 58-59 evaluate it on doubles. -/
def bracket_term_double {NSTOKES : Nat} (atm : Atmosphere NSTOKES)
    (wavelidx : Int) (layer : SphericalLayer) : Double :=
  Double.add
    (Double.mul
      (Double.mul
        (Double.sub (.finite 1)
          (boundary_sums_double atm wavelidx
            layer.entrance.interpolation_weights (.finite 0) (.finite 0)).1)
        (boundary_sums_double atm wavelidx
          layer.entrance.interpolation_weights (.finite 0) (.finite 0)).2)
      (Double.round layer.od_quad_start_fraction))
    (Double.mul
      (Double.mul
        (Double.sub (.finite 1)
          (boundary_sums_double atm wavelidx
            layer.exit.interpolation_weights (.finite 0) (.finite 0)).1)
        (boundary_sums_double atm wavelidx
          layer.exit.interpolation_weights (.finite 0) (.finite 0)).2)
      (Double.round layer.od_quad_end_fraction))

/-! ## Concrete inputs -/

/-- A grid with `ssa = 1/2` and `emission = 2` everywhere and a surface
emitting `3` at every wavelength. -/
def sample_atmosphere : Atmosphere 3 :=
  { storage := { ssa := fun _ _ => 1 / 2, emission_source := fun _ _ => 2 },
    surface := { emission := fun _ => 3 } }

/-- A layer one metre long whose two boundaries sit on grid point 0. -/
def sample_layer : SphericalLayer :=
  { entrance := { interpolation_weights := [(0, 1)] },
    exit := { interpolation_weights := [(0, 1)] },
    layer_distance := 1,
    od_quad_start_fraction := 1 / 2,
    od_quad_end_fraction := 1 / 2 }

/-- The same layer shrunk to a length of zero. -/
def degenerate_layer : SphericalLayer :=
  { sample_layer with layer_distance := 0 }

/-- The same layer stretched to a length of one kilometre. -/
def long_layer : SphericalLayer :=
  { sample_layer with layer_distance := 1000 }

/-- A layer one metre long whose two interpolation mappings are empty. -/
def unmapped_layer : SphericalLayer :=
  { sample_layer with
    entrance := { interpolation_weights := [] },
    exit := { interpolation_weights := [] } }

/-- An optical-depth view with `exp_minus_od = 1/2` whose derivative with
respect to parameter 0 is `-1/2`. -/
def sample_od : SparseODDualView :=
  { exp_minus_od := 1 / 2, deriv := [(0, -1 / 2)] }

/-- An opaque layer: `exp_minus_od = 0`. -/
def opaque_od : SparseODDualView :=
  { exp_minus_od := 0, deriv := [] }

/-- A transparent layer: `exp_minus_od = 1`. -/
def transparent_od : SparseODDualView :=
  { exp_minus_od := 1, deriv := [] }

/-- An accumulator with three Stokes components and one parameter. -/
def sample_source : Dual 3 :=
  { value := fun i => if i.val = 0 then 1 else if i.val = 1 then 5 else 7,
    deriv := fun _ => [4] }

/-- Two rays: the first one ends on the ground, the second one does not. -/
def sample_rays : List TracedRay :=
  [{ layers := [sample_layer], ground_is_hit := true },
   { layers := [sample_layer], ground_is_hit := false }]

/-- A component with both dependencies bound. -/
def sample_component : EmissionSource 3 :=
  { m_los_rays := some sample_rays, m_atmosphere := some sample_atmosphere }

/-- A component on which no binding call has been made. -/
def unbound_component : EmissionSource 3 :=
  { m_los_rays := none, m_atmosphere := none }

/-- A component whose rays are bound and whose atmosphere is not. -/
def rays_only_component : EmissionSource 3 :=
  { m_los_rays := some sample_rays, m_atmosphere := none }

/-- A grid with `ssa = 1` everywhere. -/
def scattering_atmosphere : Atmosphere 3 :=
  { storage := { ssa := fun _ _ => 1, emission_source := fun _ _ => 2 },
    surface := { emission := fun _ => 3 } }

/-- A component bound to the purely scattering grid. -/
def scattering_component : EmissionSource 3 :=
  { m_los_rays := some sample_rays, m_atmosphere := some scattering_atmosphere }

/-- A zero-initialized accumulator with three Stokes components and one
parameter. -/
def zero_source : Dual 3 :=
  { value := fun _ => 0, deriv := fun _ => [0] }

/-- A grid with `ssa = 1/2` and `emission = 4` everywhere. -/
def second_atmosphere : Atmosphere 3 :=
  { storage := { ssa := fun _ _ => 1 / 2, emission_source := fun _ _ => 4 },
    surface := { emission := fun _ => 3 } }

/-- A grid with `ssa = 1/2` whose emission is three times the emission of the
sample grid plus five times the emission of the second grid. -/
def combined_atmosphere : Atmosphere 3 :=
  { storage := { ssa := fun _ _ => 1 / 2, emission_source := fun _ _ => 26 },
    surface := { emission := fun _ => 3 } }

/-- A component bound to the second grid. -/
def second_component : EmissionSource 3 :=
  { m_los_rays := some sample_rays, m_atmosphere := some second_atmosphere }

/-- A component bound to the combined grid. -/
def combined_component : EmissionSource 3 :=
  { m_los_rays := some sample_rays, m_atmosphere := some combined_atmosphere }

/-- A layer one metre long whose entrance mapping is empty. -/
def exit_only_layer : SphericalLayer :=
  { sample_layer with entrance := { interpolation_weights := [] } }

/-- A layer one metre long whose exit mapping is empty. -/
def entrance_only_layer : SphericalLayer :=
  { sample_layer with exit := { interpolation_weights := [] } }

/-- A single ray that leaves the atmosphere without reaching the ground. -/
def limb_rays : List TracedRay :=
  [{ layers := [sample_layer], ground_is_hit := false }]

/-- A component whose only ray does not hit the ground. -/
def limb_component : EmissionSource 3 :=
  { m_los_rays := some limb_rays, m_atmosphere := some sample_atmosphere }

/-- A layer whose entrance weights are doubles of exact sum 1 and whose
running sum in double stays below 1: adding `2 ^ (-54)` to `1/2` is a tie that
goes back to `1/2`. The exit mapping is empty and the whole average is
attributed to the entrance. -/
def undershoot_layer : SphericalLayer :=
  { entrance := { interpolation_weights :=
      [(0, 1 / 2), (1, 1 / 2 ^ 54), (2, 1 / 2 ^ 54), (3, 1 / 2 - 1 / 2 ^ 53)] },
    exit := { interpolation_weights := [] },
    layer_distance := 1,
    od_quad_start_fraction := 1,
    od_quad_end_fraction := 0 }

/-- The sample layer with both quadrature fractions equal to 1. -/
def full_weight_layer : SphericalLayer :=
  { sample_layer with od_quad_start_fraction := 1, od_quad_end_fraction := 1 }

/-- A grid with `ssa = 0` and the finite emission `2 ^ 1023` everywhere. -/
def bright_atmosphere : Atmosphere 3 :=
  { storage := { ssa := fun _ _ => 0, emission_source := fun _ _ => 2 ^ 1023 },
    surface := { emission := fun _ => 3 } }

/-- A component bound to the bright grid. -/
def bright_component : EmissionSource 3 :=
  { m_los_rays := some sample_rays, m_atmosphere := some bright_atmosphere }

/-! ## Lemmas on the building blocks -/

theorem add_to_source_eq {NSTOKES : Nat} (increment : ℚ) (value : Fin NSTOKES → ℚ) :
    add_to_source increment value =
      fun i => if i.val = 0 then value i + increment else value i := by
  unfold add_to_source
  split
  · next h =>
    subst h
    funext i
    have : i.val = 0 := by omega
    simp [this]
  · rfl

theorem add_to_source_zero {NSTOKES : Nat} (value : Fin NSTOKES → ℚ) :
    add_to_source 0 value = value := by
  rw [add_to_source_eq]
  funext i
  simp

theorem add_to_source_intensity {NSTOKES : Nat} (increment : ℚ)
    (value : Fin NSTOKES → ℚ) (i : Fin NSTOKES) (hi : i.val = 0) :
    add_to_source increment value i = value i + increment := by
  rw [add_to_source_eq]
  simp [hi]

theorem add_to_source_polarized {NSTOKES : Nat} (increment : ℚ)
    (value : Fin NSTOKES → ℚ) (i : Fin NSTOKES) (hi : i.val ≠ 0) :
    add_to_source increment value i = value i := by
  rw [add_to_source_eq]
  simp [hi]

theorem boundary_sum_nil (field : Int → Int → ℚ) (wavelidx : Int) :
    boundary_sum field wavelidx [] = 0 := by
  simp [boundary_sum]

theorem boundary_sum_cons (field : Int → Int → ℚ) (wavelidx : Int)
    (ele : Int × ℚ) (rest : List (Int × ℚ)) :
    boundary_sum field wavelidx (ele :: rest) =
      ele.2 * field ele.1 wavelidx + boundary_sum field wavelidx rest := by
  simp [boundary_sum]

/-- With the atmosphere bound, a loop returns the running sums increased by the
boundary quantities of the specification. -/
theorem boundary_loop_bound {NSTOKES : Nat} (atm : Atmosphere NSTOKES)
    (wavelidx : Int) (weights : List (Int × ℚ)) (ssa emission : ℚ) :
    boundary_loop (some atm) wavelidx weights ssa emission =
      .ok (ssa + boundary_sum atm.storage.ssa wavelidx weights,
        emission + boundary_sum atm.storage.emission_source wavelidx weights) := by
  induction weights generalizing ssa emission with
  | nil => simp [boundary_loop, boundary_sum_nil]
  | cons ele rest ih =>
    simp only [boundary_loop, ih, boundary_sum_cons]
    congr 2 <;> ring

/-- A loop over an empty mapping returns the running sums, bound or not. -/
theorem boundary_loop_nil {NSTOKES : Nat} (m_atmosphere : Option (Atmosphere NSTOKES))
    (wavelidx : Int) (ssa emission : ℚ) :
    boundary_loop m_atmosphere wavelidx [] ssa emission = .ok (ssa, emission) := by
  simp [boundary_loop]

/-- With the atmosphere bound, the constant-in-layer integrator returns and
adds the emission cell of the specification. -/
theorem integrated_source_constant_bound {NSTOKES : Nat}
    (self : EmissionSource NSTOKES) (atm : Atmosphere NSTOKES)
    (wavelidx losidx layeridx wavel_threadidx threadidx : Int)
    (layer : SphericalLayer) (shell_od : SparseODDualView) (source : Dual NSTOKES)
    (hbound : self.m_atmosphere = some atm) :
    integrated_source_constant self wavelidx losidx layeridx wavel_threadidx
        threadidx layer shell_od source =
      ⟨none, { source with
        value := add_to_source
          ((1 - shell_od.exp_minus_od) * bracket_term atm wavelidx layer)
          source.value }⟩ := by
  simp only [integrated_source_constant, hbound, boundary_loop_bound, zero_add,
    bracket_term]

/-- Whatever happens, neither operation writes to the derivative block. -/
theorem integrated_source_constant_deriv {NSTOKES : Nat}
    (self : EmissionSource NSTOKES)
    (wavelidx losidx layeridx wavel_threadidx threadidx : Int)
    (layer : SphericalLayer) (shell_od : SparseODDualView) (source : Dual NSTOKES) :
    (integrated_source_constant self wavelidx losidx layeridx wavel_threadidx
        threadidx layer shell_od source).source.deriv = source.deriv := by
  unfold integrated_source_constant
  split
  · rfl
  · split <;> rfl

/-- The constant-in-layer integrator changes the value vector at index 0 at
most. -/
theorem integrated_source_constant_polarized {NSTOKES : Nat}
    (self : EmissionSource NSTOKES)
    (wavelidx losidx layeridx wavel_threadidx threadidx : Int)
    (layer : SphericalLayer) (shell_od : SparseODDualView) (source : Dual NSTOKES)
    (i : Fin NSTOKES) (hi : i.val ≠ 0) :
    (integrated_source_constant self wavelidx losidx layeridx wavel_threadidx
        threadidx layer shell_od source).source.value i = source.value i := by
  unfold integrated_source_constant
  split
  · rfl
  · split
    · rfl
    · exact add_to_source_polarized _ _ i hi

/-- The terminal term changes the value vector at index 0 at most. -/
theorem end_of_ray_source_polarized {NSTOKES : Nat}
    (self : EmissionSource NSTOKES) (wavelidx losidx wavel_threadidx threadidx : Int)
    (source : Dual NSTOKES) (i : Fin NSTOKES) (hi : i.val ≠ 0) :
    (end_of_ray_source self wavelidx losidx wavel_threadidx threadidx
        source).source.value i = source.value i := by
  unfold end_of_ray_source
  split
  · rfl
  · split
    · rfl
    · split
      · split
        · rfl
        · exact add_to_source_polarized _ _ i hi
      · rfl

/-- An in-range index reads the element at that position. -/
theorem vector_at_in_range {α : Type} (v : List α) (idx : Int) (x : α)
    (h0 : 0 ≤ idx) (hx : v.get? idx.toNat = some x) :
    vector_at v idx = .ok x := by
  unfold vector_at
  rw [if_neg (not_lt.mpr h0), hx]

/-- With the atmosphere bound and a vanishing emission cell, the
constant-in-layer integrator hands the accumulator back unchanged. -/
theorem integrated_source_constant_zero_cell {NSTOKES : Nat}
    (self : EmissionSource NSTOKES) (atm : Atmosphere NSTOKES)
    (wavelidx losidx layeridx wavel_threadidx threadidx : Int)
    (layer : SphericalLayer) (shell_od : SparseODDualView) (source : Dual NSTOKES)
    (hbound : self.m_atmosphere = some atm)
    (hcell : (1 - shell_od.exp_minus_od) * bracket_term atm wavelidx layer = 0) :
    integrated_source_constant self wavelidx losidx layeridx wavel_threadidx
        threadidx layer shell_od source = ⟨none, source⟩ := by
  rw [integrated_source_constant_bound self atm _ _ _ _ _ _ _ _ hbound, hcell,
    add_to_source_zero]

/-- Over two empty mappings the constant-in-layer integrator never reads the
atmosphere and adds a vanishing emission cell. -/
theorem integrated_source_constant_unmapped {NSTOKES : Nat}
    (self : EmissionSource NSTOKES)
    (wavelidx losidx layeridx wavel_threadidx threadidx : Int)
    (layer : SphericalLayer) (shell_od : SparseODDualView) (source : Dual NSTOKES)
    (hentrance : layer.entrance.interpolation_weights = [])
    (hexit : layer.exit.interpolation_weights = []) :
    integrated_source_constant self wavelidx losidx layeridx wavel_threadidx
        threadidx layer shell_od source = ⟨none, source⟩ := by
  unfold integrated_source_constant
  rw [hentrance, hexit, boundary_loop_nil]
  simp [add_to_source_zero]

/-- Where `ssa` is 1 at every grid point, the interpolated `ssa` is the sum of
the weights. -/
theorem boundary_sum_ssa_one (field : Int → Int → ℚ) (wavelidx : Int)
    (weights : List (Int × ℚ)) (hone : ∀ g, field g wavelidx = 1) :
    boundary_sum field wavelidx weights = (weights.map Prod.snd).sum := by
  induction weights with
  | nil => simp [boundary_sum]
  | cons ele rest ih =>
    rw [boundary_sum_cons, ih, hone]
    simp

/-- A boundary whose mapping is empty, or whose interpolated `ssa` is 1,
contributes nothing to the bracket term. -/
theorem boundary_term_zero (field_ssa field_emission : Int → Int → ℚ)
    (wavelidx : Int) (weights : List (Int × ℚ)) (fraction : ℚ)
    (hone : ∀ g, field_ssa g wavelidx = 1)
    (hweights : weights = [] ∨ (weights.map Prod.snd).sum = 1) :
    (1 - boundary_sum field_ssa wavelidx weights) *
        boundary_sum field_emission wavelidx weights * fraction = 0 := by
  rcases hweights with h | h
  · rw [h, boundary_sum_nil, boundary_sum_nil]
    ring
  · rw [boundary_sum_ssa_one field_ssa wavelidx weights hone, h]
    ring

/-- Two increments can be added in either order. -/
theorem add_to_source_comm {NSTOKES : Nat} (a b : ℚ) (value : Fin NSTOKES → ℚ) :
    add_to_source a (add_to_source b value) =
      add_to_source b (add_to_source a value) := by
  simp only [add_to_source_eq]
  funext i
  by_cases hi : i.val = 0
  · simp only [hi, if_true]
    ring
  · simp only [hi, if_false]

/-- The layer integrator acts on the accumulator by adding to the value an
increment fixed by the other arguments; whether it fails is fixed by them
too. -/
theorem integrated_source_increment {NSTOKES : Nat}
    (MINIMUM_SHELL_SIZE_M : ℚ) (self : EmissionSource NSTOKES)
    (wavelidx losidx layeridx wavel_threadidx threadidx : Int)
    (layer : SphericalLayer) (shell_od : SparseODDualView) :
    ∃ (e : Option Error) (c : ℚ), ∀ source : Dual NSTOKES,
      integrated_source MINIMUM_SHELL_SIZE_M self wavelidx losidx layeridx
          wavel_threadidx threadidx layer shell_od source =
        ⟨e, { source with value := add_to_source c source.value }⟩ := by
  unfold integrated_source
  by_cases hdist : layer.layer_distance < MINIMUM_SHELL_SIZE_M
  · refine ⟨none, 0, fun source => ?_⟩
    rw [if_pos hdist, add_to_source_zero]
  · simp only [if_neg hdist]
    unfold integrated_source_constant
    cases boundary_loop self.m_atmosphere wavelidx
        layer.entrance.interpolation_weights 0 0 with
    | error e =>
      refine ⟨some e, 0, fun source => ?_⟩
      simp only [add_to_source_zero]
    | ok start =>
      obtain ⟨ssa_start, emission_start⟩ := start
      cases boundary_loop self.m_atmosphere wavelidx
          layer.exit.interpolation_weights 0 0 with
      | error e =>
        refine ⟨some e, 0, fun source => ?_⟩
        simp only [add_to_source_zero]
      | ok stop =>
        obtain ⟨ssa_end, emission_end⟩ := stop
        exact ⟨none, _, fun source => rfl⟩

/-- The terminal term acts on the accumulator by adding to the value an
increment fixed by the other arguments, which is zero or the surface emission
of the bound atmosphere; whether it fails is fixed by them too. -/
theorem end_of_ray_source_increment {NSTOKES : Nat}
    (self : EmissionSource NSTOKES)
    (wavelidx losidx wavel_threadidx threadidx : Int) :
    ∃ (e : Option Error) (c : ℚ),
      (c = 0 ∨ ∃ atm, self.m_atmosphere = some atm ∧
        c = atm.surface.emission wavelidx) ∧
      ∀ source : Dual NSTOKES,
        end_of_ray_source self wavelidx losidx wavel_threadidx threadidx source =
          ⟨e, { source with value := add_to_source c source.value }⟩ := by
  unfold end_of_ray_source
  cases hrays : self.m_los_rays with
  | none =>
    refine ⟨some .unbound_dependency, 0, Or.inl rfl, fun source => ?_⟩
    simp only [add_to_source_zero]
  | some los_rays =>
    cases hray : vector_at los_rays losidx with
    | error e =>
      refine ⟨some e, 0, Or.inl rfl, fun source => ?_⟩
      simp only [hray, add_to_source_zero]
    | ok ray =>
      by_cases hhit : ray.ground_is_hit = true
      · cases hatm : self.m_atmosphere with
        | none =>
          refine ⟨some .unbound_dependency, 0, Or.inl rfl, fun source => ?_⟩
          simp only [hray, hhit, if_true, add_to_source_zero]
        | some atm =>
          refine ⟨none, atm.surface.emission wavelidx, Or.inr ⟨atm, rfl, rfl⟩,
            fun source => ?_⟩
          simp only [hray, hhit, if_true]
      · refine ⟨none, 0, Or.inl rfl, fun source => ?_⟩
        simp only [hray, hhit, add_to_source_zero]
        rfl

/-- Interpolation reads the grid at the given wavelength only. -/
theorem boundary_sum_congr (field field' : Int → Int → ℚ) (wavelidx : Int)
    (weights : List (Int × ℚ)) (hsame : ∀ g, field g wavelidx = field' g wavelidx) :
    boundary_sum field wavelidx weights = boundary_sum field' wavelidx weights := by
  induction weights with
  | nil => simp [boundary_sum]
  | cons ele rest ih => rw [boundary_sum_cons, boundary_sum_cons, ih, hsame]

/-- Interpolation is linear in the grid quantity. -/
theorem boundary_sum_linear (field1 field2 field3 : Int → Int → ℚ) (c1 c2 : ℚ)
    (wavelidx : Int) (weights : List (Int × ℚ))
    (hcomb : ∀ g, field3 g wavelidx = c1 * field1 g wavelidx + c2 * field2 g wavelidx) :
    boundary_sum field3 wavelidx weights =
      c1 * boundary_sum field1 wavelidx weights +
        c2 * boundary_sum field2 wavelidx weights := by
  induction weights with
  | nil => simp [boundary_sum]
  | cons ele rest ih =>
    rw [boundary_sum_cons, boundary_sum_cons, boundary_sum_cons, ih, hcomb]
    ring

/-- An index outside the range makes `std::vector::at` throw. -/
theorem vector_at_out_of_range {α : Type} (v : List α) (idx : Int)
    (hout : idx < 0 ∨ (v.length : Int) ≤ idx) :
    vector_at v idx = .error .out_of_range := by
  unfold vector_at
  by_cases hneg : idx < 0
  · rw [if_pos hneg]
  · rw [if_neg hneg]
    have hlen : (v.length : Int) ≤ idx := by
      rcases hout with h | h
      · exact absurd h hneg
      · exact h
    have hnat : v.length ≤ idx.toNat := by omega
    rw [List.get?_eq_none.mpr hnat]

/-- Zero is a double. -/
theorem Double.round_zero : Double.round 0 = .finite 0 := by
  simp [Double.round]

/-- The rounding agrees with the doubles on known values: the double nearest
to `1/10` and to `-1/3`, a tie that goes down to the even neighbour and a tie
that goes up to it, the largest finite double and the overflow threshold, and
a tie between two subnormal numbers. -/
theorem Double.round_known_values :
    Double.round (1 / 10) =
        .finite (3602879701896397 / 36028797018963968) ∧
      Double.round (-(1 / 3)) =
        .finite (-(6004799503160661 / 18014398509481984)) ∧
      Double.round (1 / 2 + 1 / 2 ^ 54) = .finite (1 / 2) ∧
      Double.round (1 / 2 + 1 / 2 ^ 53 + 1 / 2 ^ 54) =
        .finite (1 / 2 + 1 / 2 ^ 52) ∧
      Double.round (2 ^ 1024 - 2 ^ 970 - 1) = .finite (2 ^ 1024 - 2 ^ 971) ∧
      Double.round (2 ^ 1024 - 2 ^ 970) = .infinite false ∧
      Double.round (3 / 2 ^ 1075) = .finite (1 / 2 ^ 1073) := by
  decide!

/-- One is a double. -/
theorem Double.round_one : Double.round 1 = .finite 1 := by
  decide!

/-- With the atmosphere bound, a loop on doubles returns its running sums. -/
theorem boundary_loop_double_bound {NSTOKES : Nat} (atm : Atmosphere NSTOKES)
    (wavelidx : Int) (weights : List (Int × ℚ)) (ssa emission : Double) :
    boundary_loop_double (some atm) wavelidx weights ssa emission =
      .ok (boundary_sums_double atm wavelidx weights ssa emission) := by
  induction weights generalizing ssa emission with
  | nil => rfl
  | cons ele rest ih => simp only [boundary_loop_double, boundary_sums_double, ih]

/-- With the atmosphere bound, the constant-in-layer integrator on doubles
returns and adds the rounded product of the factor and the bracket term. -/
theorem integrated_source_constant_double_bound {NSTOKES : Nat}
    (self : EmissionSource NSTOKES) (atm : Atmosphere NSTOKES)
    (wavelidx losidx layeridx wavel_threadidx threadidx : Int)
    (layer : SphericalLayer) (shell_od : SparseODDualView) (source : Dual NSTOKES)
    (hbound : self.m_atmosphere = some atm) :
    integrated_source_constant_double self wavelidx losidx layeridx
        wavel_threadidx threadidx layer shell_od source =
      ⟨none,
        add_to_source_double
          (Double.mul
            (Double.sub (.finite 1) (Double.round shell_od.exp_minus_od))
            (bracket_term_double atm wavelidx layer))
          source.value,
        source.deriv⟩ := by
  simp only [integrated_source_constant_double, hbound,
    boundary_loop_double_bound, bracket_term_double]

/-- Adding a zero increment on doubles gives back a representable value. -/
theorem add_to_source_double_zero {NSTOKES : Nat} (value : Fin NSTOKES → ℚ)
    (i : Fin NSTOKES) (hvalue : Double.round (value i) = .finite (value i)) :
    add_to_source_double (.finite 0) value i = .finite (value i) := by
  unfold add_to_source_double
  by_cases hstokes : NSTOKES = 1
  · simp only [hstokes, if_true, hvalue, Double.add, add_zero]
  · by_cases hi : i.val = 0
    · simp only [hstokes, if_false, hi, if_true, hvalue, Double.add, add_zero]
    · simp only [hstokes, if_false, hi, hvalue]

/-- On doubles, a boundary whose mapping is empty, or whose interpolated `ssa`
comes out as exactly 1, contributes a zero term to the bracket when its
interpolated emission and its quadrature fraction are finite. -/
theorem boundary_term_double_zero {NSTOKES : Nat} (atm : Atmosphere NSTOKES)
    (wavelidx : Int) (weights : List (Int × ℚ)) (fraction : Double)
    (emission_value fraction_value : ℚ)
    (hssa : weights = [] ∨
      (boundary_sums_double atm wavelidx weights (.finite 0) (.finite 0)).1 =
        .finite 1)
    (hemission :
      (boundary_sums_double atm wavelidx weights (.finite 0) (.finite 0)).2 =
        .finite emission_value)
    (hfraction : fraction = .finite fraction_value) :
    Double.mul
        (Double.mul
          (Double.sub (.finite 1)
            (boundary_sums_double atm wavelidx weights (.finite 0) (.finite 0)).1)
          (boundary_sums_double atm wavelidx weights (.finite 0) (.finite 0)).2)
        fraction = .finite 0 := by
  rcases hssa with hempty | hone
  · subst hempty
    simp only [boundary_sums_double, hfraction, Double.sub, Double.neg,
      Double.add, Double.mul, neg_zero, add_zero, mul_zero, zero_mul,
      Double.round_one, Double.round_zero]
  · rw [hone, hemission, hfraction]
    simp only [Double.sub, Double.neg, Double.add, Double.mul, add_neg_cancel,
      zero_mul, Double.round_zero]

/-! ## The claims -/

/-- C1: on a layer whose `layer_distance` is at or above `MINIMUM_SHELL_SIZE_M`,
with the atmosphere bound, `integrated_source` returns and leaves the intensity
component (index 0) equal to its prior value plus
`(1 - exp_minus_od) * ((1 - ssaStart) * emissionStart * od_quad_start_fraction +
(1 - ssaEnd) * emissionEnd * od_quad_end_fraction)`, the four boundary
quantities being the weighted sums over the entrance and exit interpolation
pairs; nothing is assumed on the two quadrature fractions. -/
theorem integrated_source_adds_emission_cell {NSTOKES : Nat}
    (MINIMUM_SHELL_SIZE_M : ℚ) (self : EmissionSource NSTOKES)
    (atm : Atmosphere NSTOKES)
    (wavelidx losidx layeridx wavel_threadidx threadidx : Int)
    (layer : SphericalLayer) (shell_od : SparseODDualView) (source : Dual NSTOKES)
    (i : Fin NSTOKES)
    (hbound : self.m_atmosphere = some atm)
    (hdist : MINIMUM_SHELL_SIZE_M ≤ layer.layer_distance)
    (hi : i.val = 0) :
    (integrated_source MINIMUM_SHELL_SIZE_M self wavelidx losidx layeridx
        wavel_threadidx threadidx layer shell_od source).error = none ∧
      (integrated_source MINIMUM_SHELL_SIZE_M self wavelidx losidx layeridx
        wavel_threadidx threadidx layer shell_od source).source.value i =
        source.value i +
          (1 - shell_od.exp_minus_od) *
            ((1 - boundary_sum atm.storage.ssa wavelidx
                  layer.entrance.interpolation_weights) *
                boundary_sum atm.storage.emission_source wavelidx
                  layer.entrance.interpolation_weights *
                layer.od_quad_start_fraction +
              (1 - boundary_sum atm.storage.ssa wavelidx
                  layer.exit.interpolation_weights) *
                boundary_sum atm.storage.emission_source wavelidx
                  layer.exit.interpolation_weights *
                layer.od_quad_end_fraction) := by
  unfold integrated_source
  rw [if_neg (not_lt.mpr hdist),
    integrated_source_constant_bound self atm _ _ _ _ _ _ _ _ hbound]
  exact ⟨rfl, add_to_source_intensity _ _ i hi⟩

/-- Witness of C1: the sample layer, one metre long, against a threshold of a
tenth of a millimetre. -/
theorem integrated_source_adds_emission_cell_witness :
    sample_component.m_atmosphere = some sample_atmosphere ∧
      (1 / 10000 : ℚ) ≤ sample_layer.layer_distance ∧
      (integrated_source (1 / 10000) sample_component 0 0 0 0 0 sample_layer
        sample_od sample_source).error = none ∧
      (integrated_source (1 / 10000) sample_component 0 0 0 0 0 sample_layer
        sample_od sample_source).source.value 0 =
        sample_source.value 0 +
          (1 - sample_od.exp_minus_od) *
            ((1 - boundary_sum sample_atmosphere.storage.ssa 0
                  sample_layer.entrance.interpolation_weights) *
                boundary_sum sample_atmosphere.storage.emission_source 0
                  sample_layer.entrance.interpolation_weights *
                sample_layer.od_quad_start_fraction +
              (1 - boundary_sum sample_atmosphere.storage.ssa 0
                  sample_layer.exit.interpolation_weights) *
                boundary_sum sample_atmosphere.storage.emission_source 0
                  sample_layer.exit.interpolation_weights *
                sample_layer.od_quad_end_fraction) :=
  ⟨rfl, by norm_num [sample_layer],
    integrated_source_adds_emission_cell (1 / 10000) sample_component
      sample_atmosphere 0 0 0 0 0 sample_layer sample_od sample_source 0 rfl
      (by norm_num [sample_layer]) rfl⟩

/-- C2: on a layer whose `layer_distance` is strictly below
`MINIMUM_SHELL_SIZE_M`, `integrated_source` returns the accumulator exactly as
it received it, whatever the component is bound to and whatever the mappings,
the quadrature fractions and `exp_minus_od` are; in particular two components
bound to different atmospheres give the same result. -/
theorem integrated_source_degenerate_layer {NSTOKES : Nat}
    (MINIMUM_SHELL_SIZE_M : ℚ) (self other : EmissionSource NSTOKES)
    (wavelidx losidx layeridx wavel_threadidx threadidx : Int)
    (layer : SphericalLayer) (shell_od : SparseODDualView) (source : Dual NSTOKES)
    (hdist : layer.layer_distance < MINIMUM_SHELL_SIZE_M) :
    integrated_source MINIMUM_SHELL_SIZE_M self wavelidx losidx layeridx
        wavel_threadidx threadidx layer shell_od source = ⟨none, source⟩ ∧
      integrated_source MINIMUM_SHELL_SIZE_M self wavelidx losidx layeridx
        wavel_threadidx threadidx layer shell_od source =
        integrated_source MINIMUM_SHELL_SIZE_M other wavelidx losidx layeridx
          wavel_threadidx threadidx layer shell_od source := by
  unfold integrated_source
  simp [hdist]

/-- Witness of C2: the layer of length zero, on components bound to two
atmospheres. -/
theorem integrated_source_degenerate_layer_witness :
    degenerate_layer.layer_distance < (1 / 10000 : ℚ) ∧
      integrated_source (1 / 10000) sample_component 0 0 0 0 0 degenerate_layer
        sample_od sample_source = ⟨none, sample_source⟩ ∧
      integrated_source (1 / 10000) sample_component 0 0 0 0 0 degenerate_layer
        sample_od sample_source =
        integrated_source (1 / 10000) scattering_component 0 0 0 0 0
          degenerate_layer sample_od sample_source :=
  ⟨by norm_num [degenerate_layer],
    integrated_source_degenerate_layer (1 / 10000) sample_component
      scattering_component 0 0 0 0 0 degenerate_layer sample_od sample_source
      (by norm_num [degenerate_layer])⟩

/-- C3: with rays and atmosphere bound and an in-range line-of-sight index,
`end_of_ray_source` returns; when the ray at that index has
`ground_is_hit = true` it adds the surface emission at the wavelength to the
component of index 0 and to nothing else, and when `ground_is_hit = false` it
hands the accumulator back unchanged. -/
theorem end_of_ray_source_surface_emission {NSTOKES : Nat}
    (self : EmissionSource NSTOKES) (los_rays : List TracedRay)
    (atm : Atmosphere NSTOKES) (ray : TracedRay)
    (wavelidx losidx wavel_threadidx threadidx : Int) (source : Dual NSTOKES)
    (hrays : self.m_los_rays = some los_rays)
    (hbound : self.m_atmosphere = some atm)
    (h0 : 0 ≤ losidx) (hlt : losidx < los_rays.length)
    (hray : los_rays.get? losidx.toNat = some ray) :
    (ray.ground_is_hit = true →
        end_of_ray_source self wavelidx losidx wavel_threadidx threadidx source =
          ⟨none, { source with
            value := fun i =>
              if i.val = 0 then source.value i + atm.surface.emission wavelidx
              else source.value i }⟩) ∧
      (ray.ground_is_hit = false →
        end_of_ray_source self wavelidx losidx wavel_threadidx threadidx source =
          ⟨none, source⟩) := by
  unfold end_of_ray_source
  simp only [hrays, hbound, vector_at_in_range los_rays losidx ray h0 hray]
  constructor
  · intro hhit
    simp only [hhit, if_true, add_to_source_eq]
  · intro hhit
    simp [hhit]

/-- Witness of C3: the first sample ray ends on the ground. -/
theorem end_of_ray_source_surface_emission_witness :
    (end_of_ray_source sample_component 0 0 0 0 sample_source =
        ⟨none, { sample_source with
          value := fun i =>
            if i.val = 0 then
              sample_source.value i + sample_atmosphere.surface.emission 0
            else sample_source.value i }⟩) ∧
      (end_of_ray_source sample_component 0 1 0 0 sample_source =
        ⟨none, sample_source⟩) :=
  ⟨(end_of_ray_source_surface_emission sample_component sample_rays
      sample_atmosphere ⟨[sample_layer], true⟩ 0 0 0 0 sample_source rfl rfl
      (by decide) (by decide) rfl).1 rfl,
    (end_of_ray_source_surface_emission sample_component sample_rays
      sample_atmosphere ⟨[sample_layer], false⟩ 0 1 0 0 sample_source rfl rfl
      (by decide) (by decide) rfl).2 rfl⟩

/-- C4: with `NSTOKES = 3`, for every component, layer, optical-depth view,
index and prior accumulator, the accumulator components at indices 1 and 2
after `integrated_source` and after `end_of_ray_source` equal their values
before the call. -/
theorem polarized_components_untouched (MINIMUM_SHELL_SIZE_M : ℚ)
    (self : EmissionSource 3)
    (wavelidx losidx layeridx wavel_threadidx threadidx : Int)
    (layer : SphericalLayer) (shell_od : SparseODDualView) (source : Dual 3) :
    ((integrated_source MINIMUM_SHELL_SIZE_M self wavelidx losidx layeridx
          wavel_threadidx threadidx layer shell_od source).source.value 1 =
        source.value 1 ∧
      (integrated_source MINIMUM_SHELL_SIZE_M self wavelidx losidx layeridx
          wavel_threadidx threadidx layer shell_od source).source.value 2 =
        source.value 2) ∧
    ((end_of_ray_source self wavelidx losidx wavel_threadidx threadidx
          source).source.value 1 = source.value 1 ∧
      (end_of_ray_source self wavelidx losidx wavel_threadidx threadidx
          source).source.value 2 = source.value 2) := by
  refine ⟨?_, end_of_ray_source_polarized _ _ _ _ _ _ 1 (by decide),
    end_of_ray_source_polarized _ _ _ _ _ _ 2 (by decide)⟩
  unfold integrated_source
  split
  · exact ⟨rfl, rfl⟩
  · exact ⟨integrated_source_constant_polarized _ _ _ _ _ _ _ _ _ 1 (by decide),
      integrated_source_constant_polarized _ _ _ _ _ _ _ _ _ 2 (by decide)⟩

/-- C5, as the code has it: `integrated_source` never writes to the derivative
block. After every call, on every layer and whatever derivative information the
optical-depth view carries, the derivative block of the accumulator equals its
prior derivative block. -/
theorem integrated_source_keeps_derivative_block {NSTOKES : Nat}
    (MINIMUM_SHELL_SIZE_M : ℚ) (self : EmissionSource NSTOKES)
    (wavelidx losidx layeridx wavel_threadidx threadidx : Int)
    (layer : SphericalLayer) (shell_od : SparseODDualView) (source : Dual NSTOKES) :
    (integrated_source MINIMUM_SHELL_SIZE_M self wavelidx losidx layeridx
        wavel_threadidx threadidx layer shell_od source).source.deriv =
      source.deriv := by
  unfold integrated_source
  split
  · rfl
  · exact integrated_source_constant_deriv _ _ _ _ _ _ _ _ _

/-- C5 fails as stated: on the sample layer (non-degenerate, bracket term 1)
with an optical-depth view whose `exp_minus_od` has derivative `-1/2` with
respect to parameter 0, the call returns, the value of index 0 grows by `1/2`,
and the derivative block is exactly the prior one: it receives no
contribution. -/
theorem derivative_block_receives_nothing :
    ¬ (sample_layer.layer_distance < 1 / 10000) ∧
      sample_od.deriv = [(0, -1 / 2)] ∧
      bracket_term sample_atmosphere 0 sample_layer = 1 ∧
      (integrated_source (1 / 10000) sample_component 0 0 0 0 0 sample_layer
        sample_od sample_source).error = none ∧
      (integrated_source (1 / 10000) sample_component 0 0 0 0 0 sample_layer
        sample_od sample_source).source.value 0 = sample_source.value 0 + 1 / 2 ∧
      (integrated_source (1 / 10000) sample_component 0 0 0 0 0 sample_layer
        sample_od sample_source).source.deriv = sample_source.deriv ∧
      (integrated_source (1 / 10000) sample_component 0 0 0 0 0 sample_layer
        sample_od sample_source).source.deriv 0 = [4] := by
  have hdist : ¬ (sample_layer.layer_distance < 1 / 10000) := by
    norm_num [sample_layer]
  have hbracket : bracket_term sample_atmosphere 0 sample_layer = 1 := by
    norm_num [bracket_term, boundary_sum, sample_atmosphere, sample_layer]
  have hcall :
      integrated_source (1 / 10000) sample_component 0 0 0 0 0 sample_layer
        sample_od sample_source =
      ⟨none, { sample_source with
        value := add_to_source
          ((1 - sample_od.exp_minus_od) * bracket_term sample_atmosphere 0 sample_layer)
          sample_source.value }⟩ := by
    unfold integrated_source
    rw [if_neg hdist]
    exact integrated_source_constant_bound sample_component sample_atmosphere
      0 0 0 0 0 sample_layer sample_od sample_source rfl
  refine ⟨hdist, rfl, hbracket, ?_, ?_, ?_, ?_⟩
  · rw [hcall]
  · rw [hcall, hbracket]
    simp only []
    rw [add_to_source_intensity _ _ 0 rfl]
    norm_num [sample_od]
  · rw [hcall]
  · rw [hcall]
    rfl

/-- C6, as the code has it: neither call checks that its dependencies are
bound, and a call that does not dereference an unbound pointer returns
normally. Whatever the component is bound to, `integrated_source` returns the
accumulator unchanged on a degenerate layer and on a layer whose two mappings
are empty; `end_of_ray_source`, with the rays bound and an in-range index,
returns the accumulator unchanged for a ray that does not hit the ground,
whether the atmosphere is bound or not; and `integrated_source` never reads
the ray collection. Nothing is stated about a call that dereferences an
unbound pointer. -/
theorem unbound_dependency_behaviour {NSTOKES : Nat}
    (MINIMUM_SHELL_SIZE_M : ℚ) (self : EmissionSource NSTOKES)
    (wavelidx losidx layeridx wavel_threadidx threadidx : Int)
    (layer : SphericalLayer) (shell_od : SparseODDualView) (source : Dual NSTOKES) :
    (layer.layer_distance < MINIMUM_SHELL_SIZE_M →
        integrated_source MINIMUM_SHELL_SIZE_M self wavelidx losidx layeridx
          wavel_threadidx threadidx layer shell_od source = ⟨none, source⟩) ∧
      (layer.entrance.interpolation_weights = [] →
        layer.exit.interpolation_weights = [] →
        integrated_source MINIMUM_SHELL_SIZE_M self wavelidx losidx layeridx
          wavel_threadidx threadidx layer shell_od source = ⟨none, source⟩) ∧
      (∀ (los_rays : List TracedRay) (ray : TracedRay),
        self.m_los_rays = some los_rays →
        0 ≤ losidx →
        los_rays.get? losidx.toNat = some ray →
        ray.ground_is_hit = false →
        end_of_ray_source self wavelidx losidx wavel_threadidx threadidx source =
          ⟨none, source⟩) ∧
      (∀ atm : Atmosphere NSTOKES,
        self.m_atmosphere = some atm →
        integrated_source MINIMUM_SHELL_SIZE_M
            { m_los_rays := none, m_atmosphere := some atm } wavelidx losidx
            layeridx wavel_threadidx threadidx layer shell_od source =
          integrated_source MINIMUM_SHELL_SIZE_M self wavelidx losidx layeridx
            wavel_threadidx threadidx layer shell_od source) := by
  refine ⟨?_, ?_, ?_, ?_⟩
  · intro hdist
    unfold integrated_source
    rw [if_pos hdist]
  · intro hentrance hexit
    unfold integrated_source
    split
    · rfl
    · exact integrated_source_constant_unmapped _ _ _ _ _ _ _ _ _ hentrance hexit
  · intro los_rays ray hrays h0 hray hhit
    unfold end_of_ray_source
    simp only [hrays, vector_at_in_range los_rays losidx ray h0 hray, hhit]
    rfl
  · intro atm hbound
    unfold integrated_source integrated_source_constant
    rw [hbound]

/-- Witness of C6 as the code has it: the component on which no binding call
was made, on the layer of length zero and on the layer without mappings; the
component with only the rays bound, for the ray that misses the ground; and the
component with only the atmosphere bound against the fully bound one. -/
theorem unbound_dependency_behaviour_witness :
    integrated_source (1 / 10000) unbound_component 0 0 0 0 0 degenerate_layer
        sample_od sample_source = ⟨none, sample_source⟩ ∧
      integrated_source (1 / 10000) unbound_component 0 0 0 0 0 unmapped_layer
        sample_od sample_source = ⟨none, sample_source⟩ ∧
      end_of_ray_source rays_only_component 0 1 0 0 sample_source =
        ⟨none, sample_source⟩ ∧
      integrated_source (1 / 10000)
          { m_los_rays := none, m_atmosphere := some sample_atmosphere } 0 0 0 0 0
          sample_layer sample_od sample_source =
        integrated_source (1 / 10000) sample_component 0 0 0 0 0 sample_layer
          sample_od sample_source :=
  ⟨(unbound_dependency_behaviour (1 / 10000) unbound_component 0 0 0 0 0
      degenerate_layer sample_od sample_source).1
      (by norm_num [degenerate_layer]),
    (unbound_dependency_behaviour (1 / 10000) unbound_component 0 0 0 0 0
      unmapped_layer sample_od sample_source).2.1 rfl rfl,
    (unbound_dependency_behaviour (1 / 10000) rays_only_component 0 1 0 0 0
      sample_layer sample_od sample_source).2.2.1 sample_rays
      ⟨[sample_layer], false⟩ rfl (by decide) rfl rfl,
    (unbound_dependency_behaviour (1 / 10000) sample_component 0 0 0 0 0
      sample_layer sample_od sample_source).2.2.2 sample_atmosphere rfl⟩

/-- C6 fails as stated: on a component on which no binding call was made,
`integrated_source` returns normally, with the accumulator it received, on the
layer of length zero and on the layer whose mappings are both empty; and
`end_of_ray_source`, with only the rays bound, returns normally for the ray
that does not hit the ground. -/
theorem unbound_calls_return_normally :
    unbound_component.m_atmosphere = none ∧
      unbound_component.m_los_rays = none ∧
      integrated_source (1 / 10000) unbound_component 0 0 0 0 0 degenerate_layer
        sample_od sample_source = ⟨none, sample_source⟩ ∧
      integrated_source (1 / 10000) unbound_component 0 0 0 0 0 unmapped_layer
        sample_od sample_source = ⟨none, sample_source⟩ ∧
      rays_only_component.m_atmosphere = none ∧
      end_of_ray_source rays_only_component 0 1 0 0 sample_source =
        ⟨none, sample_source⟩ := by
  refine ⟨rfl, rfl, ?_, ?_, rfl, rfl⟩
  · unfold integrated_source
    rw [if_pos (by norm_num [degenerate_layer])]
  · unfold integrated_source
    rw [if_neg (by norm_num [unmapped_layer, sample_layer])]
    exact integrated_source_constant_unmapped _ _ _ _ _ _ _ _ _ rfl rfl

/-- C7, as the code has it: with the atmosphere bound and `ssa = 1` at every
grid point for the wavelength, on a layer whose entrance and exit mappings are
each empty or have weights summing to 1, `integrated_source` computed without
rounding returns the accumulator unchanged, whatever the emission values, the
quadrature fractions and `exp_minus_od` are; and computed on doubles it
returns and leaves a component that is a double as it was, provided that at
each boundary the mapping is empty or the interpolated `ssa` of lines 39-52
comes out as exactly 1, and that the interpolated emissions, the quadrature
fractions and `1 - exp_minus_od` are finite. -/
theorem pure_scattering_contributes_nothing {NSTOKES : Nat}
    (MINIMUM_SHELL_SIZE_M : ℚ) (self : EmissionSource NSTOKES)
    (atm : Atmosphere NSTOKES)
    (wavelidx losidx layeridx wavel_threadidx threadidx : Int)
    (layer : SphericalLayer) (shell_od : SparseODDualView) (source : Dual NSTOKES)
    (hbound : self.m_atmosphere = some atm)
    (hssa : ∀ g, atm.storage.ssa g wavelidx = 1)
    (hentrance : layer.entrance.interpolation_weights = [] ∨
      (layer.entrance.interpolation_weights.map Prod.snd).sum = 1)
    (hexit : layer.exit.interpolation_weights = [] ∨
      (layer.exit.interpolation_weights.map Prod.snd).sum = 1) :
    integrated_source MINIMUM_SHELL_SIZE_M self wavelidx losidx layeridx
        wavel_threadidx threadidx layer shell_od source = ⟨none, source⟩ ∧
      (∀ (emission_start emission_end start_fraction end_fraction factor : ℚ)
          (i : Fin NSTOKES),
        (layer.entrance.interpolation_weights = [] ∨
          (boundary_sums_double atm wavelidx
            layer.entrance.interpolation_weights (.finite 0) (.finite 0)).1 =
            .finite 1) →
        (layer.exit.interpolation_weights = [] ∨
          (boundary_sums_double atm wavelidx
            layer.exit.interpolation_weights (.finite 0) (.finite 0)).1 =
            .finite 1) →
        (boundary_sums_double atm wavelidx
          layer.entrance.interpolation_weights (.finite 0) (.finite 0)).2 =
          .finite emission_start →
        (boundary_sums_double atm wavelidx
          layer.exit.interpolation_weights (.finite 0) (.finite 0)).2 =
          .finite emission_end →
        Double.round layer.od_quad_start_fraction = .finite start_fraction →
        Double.round layer.od_quad_end_fraction = .finite end_fraction →
        Double.sub (.finite 1) (Double.round shell_od.exp_minus_od) =
          .finite factor →
        Double.round (source.value i) = .finite (source.value i) →
        (integrated_source_double MINIMUM_SHELL_SIZE_M self wavelidx losidx
            layeridx wavel_threadidx threadidx layer shell_od source).error =
          none ∧
        (integrated_source_double MINIMUM_SHELL_SIZE_M self wavelidx losidx
            layeridx wavel_threadidx threadidx layer shell_od source).value i =
          .finite (source.value i)) := by
  constructor
  · unfold integrated_source
    split
    · rfl
    · apply integrated_source_constant_zero_cell self atm _ _ _ _ _ _ _ _ hbound
      unfold bracket_term
      rw [boundary_term_zero _ _ _ _ _ hssa hentrance,
        boundary_term_zero _ _ _ _ _ hssa hexit]
      ring
  · intro emission_start emission_end start_fraction end_fraction factor i
      hssa_start hssa_end hemission_start hemission_end hstart hend hfactor
      hvalue
    unfold integrated_source_double
    split
    · exact ⟨rfl, hvalue⟩
    · rw [integrated_source_constant_double_bound self atm _ _ _ _ _ _ _ _ hbound]
      refine ⟨rfl, ?_⟩
      have hcell :
          Double.mul
              (Double.sub (.finite 1) (Double.round shell_od.exp_minus_od))
              (bracket_term_double atm wavelidx layer) = .finite 0 := by
        unfold bracket_term_double
        rw [boundary_term_double_zero atm wavelidx _ _ emission_start
            start_fraction hssa_start hemission_start hstart,
          boundary_term_double_zero atm wavelidx _ _ emission_end
            end_fraction hssa_end hemission_end hend, hfactor]
        simp only [Double.add, Double.mul, add_zero, mul_zero,
          Double.round_zero]
      simp only [hcell]
      exact add_to_source_double_zero source.value i hvalue

/-- Witness of C7 as the code has it: the sample layer, whose mappings have the
single weight 1, on the purely scattering grid; on doubles its interpolated
`ssa` is exactly 1 and the intensity component stays 1. -/
theorem pure_scattering_contributes_nothing_witness :
    (∀ g, scattering_atmosphere.storage.ssa g 0 = 1) ∧
      (sample_layer.entrance.interpolation_weights.map Prod.snd).sum = 1 ∧
      (sample_layer.exit.interpolation_weights.map Prod.snd).sum = 1 ∧
      integrated_source (1 / 10000) scattering_component 0 0 0 0 0 sample_layer
        sample_od sample_source = ⟨none, sample_source⟩ ∧
      (boundary_sums_double scattering_atmosphere 0
        sample_layer.entrance.interpolation_weights (.finite 0) (.finite 0)).1 =
        .finite 1 ∧
      (integrated_source_double (1 / 10000) scattering_component 0 0 0 0 0
        sample_layer sample_od sample_source).error = none ∧
      (integrated_source_double (1 / 10000) scattering_component 0 0 0 0 0
        sample_layer sample_od sample_source).value 0 =
        .finite (sample_source.value 0) :=
  ⟨fun _ => rfl, by simp [sample_layer], by simp [sample_layer],
    (pure_scattering_contributes_nothing (1 / 10000) scattering_component
      scattering_atmosphere 0 0 0 0 0 sample_layer sample_od sample_source rfl
      (fun _ => rfl) (Or.inr (by simp [sample_layer]))
      (Or.inr (by simp [sample_layer]))).1,
    by decide!,
    (pure_scattering_contributes_nothing (1 / 10000) scattering_component
      scattering_atmosphere 0 0 0 0 0 sample_layer sample_od sample_source rfl
      (fun _ => rfl) (Or.inr (by simp [sample_layer]))
      (Or.inr (by simp [sample_layer]))).2 2 2 (1 / 2) (1 / 2) (1 / 2) 0
      (Or.inr (by decide!)) (Or.inr (by decide!)) (by decide!) (by decide!)
      (by decide!) (by decide!) (by decide!) (by decide!)⟩

/-- C7 fails as stated on doubles. The grid has `ssa = 1` everywhere; the four
entrance weights are doubles whose exact sum is 1 and the exit mapping is
empty. The loop of lines 39-45 rounds `1/2 + 2^(-54)` back to `1/2` twice and
leaves `ssa_start = 1 - 2^(-53)`, so the call adds `2^(-52) - 2^(-105)` to the
intensity component of a zero accumulator. -/
theorem pure_scattering_rounding_residue :
    (∀ g, scattering_atmosphere.storage.ssa g 0 = 1) ∧
      (undershoot_layer.entrance.interpolation_weights.map Prod.snd).sum = 1 ∧
      undershoot_layer.exit.interpolation_weights = [] ∧
      (∀ ele ∈ undershoot_layer.entrance.interpolation_weights,
        Double.round ele.2 = .finite ele.2) ∧
      (boundary_sums_double scattering_atmosphere 0
        undershoot_layer.entrance.interpolation_weights (.finite 0)
        (.finite 0)).1 = .finite (1 - 1 / 2 ^ 53) ∧
      Double.round (zero_source.value 0) = .finite 0 ∧
      (integrated_source_double (1 / 10000) scattering_component 0 0 0 0 0
        undershoot_layer opaque_od zero_source).error = none ∧
      (integrated_source_double (1 / 10000) scattering_component 0 0 0 0 0
        undershoot_layer opaque_od zero_source).value 0 =
        .finite (1 / 2 ^ 52 - 1 / 2 ^ 105) := by
  refine ⟨fun _ => rfl, ?_, rfl, ?_, ?_, ?_, ?_, ?_⟩
  · norm_num [undershoot_layer]
  · decide!
  · decide!
  · decide!
  · decide!
  · decide!

/-- C8, as the code has it: with the atmosphere bound and `exp_minus_od = 1`,
`integrated_source` returns the accumulator unchanged on every layer, for any
`ssa`, emission, weights and quadrature fractions, when it is computed without
rounding; and computed on doubles it returns and leaves a component that is a
double as it was, provided the bracket term of lines 58-59 comes out
finite. -/
theorem transparent_layer_contributes_nothing {NSTOKES : Nat}
    (MINIMUM_SHELL_SIZE_M : ℚ) (self : EmissionSource NSTOKES)
    (atm : Atmosphere NSTOKES)
    (wavelidx losidx layeridx wavel_threadidx threadidx : Int)
    (layer : SphericalLayer) (shell_od : SparseODDualView) (source : Dual NSTOKES)
    (hbound : self.m_atmosphere = some atm)
    (hod : shell_od.exp_minus_od = 1) :
    integrated_source MINIMUM_SHELL_SIZE_M self wavelidx losidx layeridx
        wavel_threadidx threadidx layer shell_od source = ⟨none, source⟩ ∧
      (∀ (bracket : ℚ) (i : Fin NSTOKES),
        bracket_term_double atm wavelidx layer = .finite bracket →
        Double.round (source.value i) = .finite (source.value i) →
        (integrated_source_double MINIMUM_SHELL_SIZE_M self wavelidx losidx
            layeridx wavel_threadidx threadidx layer shell_od source).error =
          none ∧
        (integrated_source_double MINIMUM_SHELL_SIZE_M self wavelidx losidx
            layeridx wavel_threadidx threadidx layer shell_od source).value i =
          .finite (source.value i)) := by
  constructor
  · unfold integrated_source
    split
    · rfl
    · apply integrated_source_constant_zero_cell self atm _ _ _ _ _ _ _ _ hbound
      rw [hod]
      ring
  · intro bracket i hbracket hvalue
    unfold integrated_source_double
    split
    · exact ⟨rfl, hvalue⟩
    · rw [integrated_source_constant_double_bound self atm _ _ _ _ _ _ _ _ hbound,
        hod, hbracket, Double.round_one]
      refine ⟨rfl, ?_⟩
      have hfactor : Double.sub (.finite 1) (.finite 1) = .finite 0 := by
        simp only [Double.sub, Double.neg, Double.add, add_neg_cancel,
          Double.round_zero]
      have hcell : Double.mul (.finite 0) (.finite bracket) = .finite 0 := by
        simp only [Double.mul, zero_mul, Double.round_zero]
      simp only [hfactor, hcell]
      exact add_to_source_double_zero source.value i hvalue

/-- Witness of C8 as the code has it: the sample layer seen through a
transparent view; on doubles its bracket term is 1 and the intensity component
stays 1. -/
theorem transparent_layer_contributes_nothing_witness :
    transparent_od.exp_minus_od = 1 ∧
      integrated_source (1 / 10000) sample_component 0 0 0 0 0 sample_layer
        transparent_od sample_source = ⟨none, sample_source⟩ ∧
      bracket_term_double sample_atmosphere 0 sample_layer = .finite 1 ∧
      Double.round (sample_source.value 0) = .finite (sample_source.value 0) ∧
      (integrated_source_double (1 / 10000) sample_component 0 0 0 0 0
        sample_layer transparent_od sample_source).error = none ∧
      (integrated_source_double (1 / 10000) sample_component 0 0 0 0 0
        sample_layer transparent_od sample_source).value 0 =
        .finite (sample_source.value 0) :=
  ⟨rfl,
    (transparent_layer_contributes_nothing (1 / 10000) sample_component
      sample_atmosphere 0 0 0 0 0 sample_layer transparent_od sample_source rfl
      rfl).1,
    by decide!, by decide!,
    (transparent_layer_contributes_nothing (1 / 10000) sample_component
      sample_atmosphere 0 0 0 0 0 sample_layer transparent_od sample_source rfl
      rfl).2 1 0 (by decide!) (by decide!)⟩

/-- C8 fails as stated on doubles. With `exp_minus_od = 1`, `ssa = 0`, the
finite emission `2^1023` at both boundaries and both quadrature fractions 1,
the sum of lines 58-59 overflows to infinity, line 57 multiplies it by zero,
and the intensity component goes from 1 to NaN. -/
theorem transparent_layer_overflow :
    transparent_od.exp_minus_od = 1 ∧
      (∀ g, Double.round (bright_atmosphere.storage.emission_source g 0) =
        .finite (2 ^ 1023)) ∧
      bracket_term_double bright_atmosphere 0 full_weight_layer =
        .infinite false ∧
      Double.round (sample_source.value 0) = .finite 1 ∧
      (integrated_source_double (1 / 10000) bright_component 0 0 0 0 0
        full_weight_layer transparent_od sample_source).error = none ∧
      (integrated_source_double (1 / 10000) bright_component 0 0 0 0 0
        full_weight_layer transparent_od sample_source).value 0 = .nan := by
  refine ⟨rfl, fun _ => ?_, ?_, ?_, ?_, ?_⟩
  · show Double.round (2 ^ 1023) = .finite (2 ^ 1023)
    decide!
  · decide!
  · decide!
  · decide!
  · decide!

/-- C9: with the atmosphere bound, on a layer whose `layer_distance` is at or
above the threshold and with `exp_minus_od = 0`, `integrated_source` returns
and adds exactly the bracket term
`(1 - ssaStart)*emissionStart*od_quad_start_fraction +
(1 - ssaEnd)*emissionEnd*od_quad_end_fraction` to the intensity component. -/
theorem opaque_layer_adds_bracket_term {NSTOKES : Nat}
    (MINIMUM_SHELL_SIZE_M : ℚ) (self : EmissionSource NSTOKES)
    (atm : Atmosphere NSTOKES)
    (wavelidx losidx layeridx wavel_threadidx threadidx : Int)
    (layer : SphericalLayer) (shell_od : SparseODDualView) (source : Dual NSTOKES)
    (i : Fin NSTOKES)
    (hbound : self.m_atmosphere = some atm)
    (hdist : MINIMUM_SHELL_SIZE_M ≤ layer.layer_distance)
    (hod : shell_od.exp_minus_od = 0)
    (hi : i.val = 0) :
    (integrated_source MINIMUM_SHELL_SIZE_M self wavelidx losidx layeridx
        wavel_threadidx threadidx layer shell_od source).error = none ∧
      (integrated_source MINIMUM_SHELL_SIZE_M self wavelidx losidx layeridx
        wavel_threadidx threadidx layer shell_od source).source.value i =
        source.value i +
          ((1 - boundary_sum atm.storage.ssa wavelidx
                layer.entrance.interpolation_weights) *
              boundary_sum atm.storage.emission_source wavelidx
                layer.entrance.interpolation_weights *
              layer.od_quad_start_fraction +
            (1 - boundary_sum atm.storage.ssa wavelidx
                layer.exit.interpolation_weights) *
              boundary_sum atm.storage.emission_source wavelidx
                layer.exit.interpolation_weights *
              layer.od_quad_end_fraction) := by
  unfold integrated_source
  rw [if_neg (not_lt.mpr hdist),
    integrated_source_constant_bound self atm _ _ _ _ _ _ _ _ hbound]
  refine ⟨rfl, ?_⟩
  simp only []
  rw [add_to_source_intensity _ _ i hi, hod, bracket_term]
  ring

/-- Witness of C9: the sample layer seen through an opaque view gains the
bracket term, which is 1 there. -/
theorem opaque_layer_adds_bracket_term_witness :
    (1 / 10000 : ℚ) ≤ sample_layer.layer_distance ∧
      opaque_od.exp_minus_od = 0 ∧
      (integrated_source (1 / 10000) sample_component 0 0 0 0 0 sample_layer
        opaque_od sample_source).error = none ∧
      (integrated_source (1 / 10000) sample_component 0 0 0 0 0 sample_layer
        opaque_od sample_source).source.value 0 =
        sample_source.value 0 +
          ((1 - boundary_sum sample_atmosphere.storage.ssa 0
                sample_layer.entrance.interpolation_weights) *
              boundary_sum sample_atmosphere.storage.emission_source 0
                sample_layer.entrance.interpolation_weights *
              sample_layer.od_quad_start_fraction +
            (1 - boundary_sum sample_atmosphere.storage.ssa 0
                sample_layer.exit.interpolation_weights) *
              boundary_sum sample_atmosphere.storage.emission_source 0
                sample_layer.exit.interpolation_weights *
              sample_layer.od_quad_end_fraction) :=
  ⟨by norm_num [sample_layer], rfl,
    opaque_layer_adds_bracket_term (1 / 10000) sample_component
      sample_atmosphere 0 0 0 0 0 sample_layer opaque_od sample_source 0 rfl
      (by norm_num [sample_layer]) rfl rfl⟩

/-- C10: two layers that differ only in `layer_distance`, both at or above
`MINIMUM_SHELL_SIZE_M`, give the same outcome of `integrated_source` from the
same component, indices, optical-depth view and prior accumulator. -/
theorem integrated_source_length_independent {NSTOKES : Nat}
    (MINIMUM_SHELL_SIZE_M : ℚ) (self : EmissionSource NSTOKES)
    (wavelidx losidx layeridx wavel_threadidx threadidx : Int)
    (layer1 layer2 : SphericalLayer) (shell_od : SparseODDualView)
    (source : Dual NSTOKES)
    (hentrance : layer1.entrance = layer2.entrance)
    (hexit : layer1.exit = layer2.exit)
    (hstart : layer1.od_quad_start_fraction = layer2.od_quad_start_fraction)
    (hend : layer1.od_quad_end_fraction = layer2.od_quad_end_fraction)
    (hdist1 : MINIMUM_SHELL_SIZE_M ≤ layer1.layer_distance)
    (hdist2 : MINIMUM_SHELL_SIZE_M ≤ layer2.layer_distance) :
    integrated_source MINIMUM_SHELL_SIZE_M self wavelidx losidx layeridx
        wavel_threadidx threadidx layer1 shell_od source =
      integrated_source MINIMUM_SHELL_SIZE_M self wavelidx losidx layeridx
        wavel_threadidx threadidx layer2 shell_od source := by
  unfold integrated_source
  rw [if_neg (not_lt.mpr hdist1), if_neg (not_lt.mpr hdist2)]
  unfold integrated_source_constant
  rw [hentrance, hexit, hstart, hend]

/-- Witness of C10: the sample layer at one metre and at one kilometre. -/
theorem integrated_source_length_independent_witness :
    sample_layer.layer_distance ≠ long_layer.layer_distance ∧
      (1 / 10000 : ℚ) ≤ sample_layer.layer_distance ∧
      (1 / 10000 : ℚ) ≤ long_layer.layer_distance ∧
      integrated_source (1 / 10000) sample_component 0 0 0 0 0 sample_layer
          sample_od sample_source =
        integrated_source (1 / 10000) sample_component 0 0 0 0 0 long_layer
          sample_od sample_source :=
  ⟨by norm_num [sample_layer, long_layer], by norm_num [sample_layer],
    by norm_num [long_layer],
    integrated_source_length_independent (1 / 10000) sample_component 0 0 0 0 0
      sample_layer long_layer sample_od sample_source rfl rfl rfl rfl
      (by norm_num [sample_layer]) (by norm_num [long_layer])⟩

/-- C11: with the atmosphere bound, on a layer whose `layer_distance` is at or
above the threshold, calling `integrated_source` twice with the same arguments
on a zero-initialized accumulator returns both times and yields an intensity
component equal to twice the one a single call yields on a zero-initialized
accumulator. -/
theorem integrated_source_twice_doubles {NSTOKES : Nat}
    (MINIMUM_SHELL_SIZE_M : ℚ) (self : EmissionSource NSTOKES)
    (atm : Atmosphere NSTOKES)
    (wavelidx losidx layeridx wavel_threadidx threadidx : Int)
    (layer : SphericalLayer) (shell_od : SparseODDualView) (source : Dual NSTOKES)
    (i : Fin NSTOKES)
    (hbound : self.m_atmosphere = some atm)
    (hdist : MINIMUM_SHELL_SIZE_M ≤ layer.layer_distance)
    (hzero : ∀ j, source.value j = 0)
    (hi : i.val = 0) :
    (integrated_source MINIMUM_SHELL_SIZE_M self wavelidx losidx layeridx
        wavel_threadidx threadidx layer shell_od
        (integrated_source MINIMUM_SHELL_SIZE_M self wavelidx losidx layeridx
          wavel_threadidx threadidx layer shell_od source).source).error = none ∧
      (integrated_source MINIMUM_SHELL_SIZE_M self wavelidx losidx layeridx
        wavel_threadidx threadidx layer shell_od
        (integrated_source MINIMUM_SHELL_SIZE_M self wavelidx losidx layeridx
          wavel_threadidx threadidx layer shell_od source).source).source.value i =
        2 * (integrated_source MINIMUM_SHELL_SIZE_M self wavelidx losidx layeridx
          wavel_threadidx threadidx layer shell_od source).source.value i := by
  unfold integrated_source
  simp only [if_neg (not_lt.mpr hdist),
    integrated_source_constant_bound self atm _ _ _ _ _ _ _ _ hbound,
    add_to_source_intensity _ _ i hi, hzero]
  exact ⟨trivial, by ring⟩

/-- Witness of C11: the sample layer on the zero-initialized accumulator. -/
theorem integrated_source_twice_doubles_witness :
    (∀ j, zero_source.value j = 0) ∧
      (integrated_source (1 / 10000) sample_component 0 0 0 0 0 sample_layer
        sample_od
        (integrated_source (1 / 10000) sample_component 0 0 0 0 0 sample_layer
          sample_od zero_source).source).error = none ∧
      (integrated_source (1 / 10000) sample_component 0 0 0 0 0 sample_layer
        sample_od
        (integrated_source (1 / 10000) sample_component 0 0 0 0 0 sample_layer
          sample_od zero_source).source).source.value 0 =
        2 * (integrated_source (1 / 10000) sample_component 0 0 0 0 0
          sample_layer sample_od zero_source).source.value 0 :=
  ⟨fun _ => rfl,
    integrated_source_twice_doubles (1 / 10000) sample_component
      sample_atmosphere 0 0 0 0 0 sample_layer sample_od zero_source 0 rfl
      (by norm_num [sample_layer]) (fun _ => rfl) rfl⟩

/-- C12: the outcome of `integrated_source` does not depend on `losidx`,
`layeridx`, `wavel_threadidx` and `threadidx`, and the outcome of
`end_of_ray_source` does not depend on `wavel_threadidx` and `threadidx`: two
calls that differ only in those arguments give the same outcome. -/
theorem thread_indices_are_ignored {NSTOKES : Nat}
    (MINIMUM_SHELL_SIZE_M : ℚ) (self : EmissionSource NSTOKES)
    (wavelidx losidx layeridx wavel_threadidx threadidx : Int)
    (losidx' layeridx' wavel_threadidx' threadidx' : Int)
    (layer : SphericalLayer) (shell_od : SparseODDualView) (source : Dual NSTOKES) :
    integrated_source MINIMUM_SHELL_SIZE_M self wavelidx losidx layeridx
        wavel_threadidx threadidx layer shell_od source =
      integrated_source MINIMUM_SHELL_SIZE_M self wavelidx losidx' layeridx'
        wavel_threadidx' threadidx' layer shell_od source ∧
    end_of_ray_source self wavelidx losidx wavel_threadidx threadidx source =
      end_of_ray_source self wavelidx losidx wavel_threadidx' threadidx' source := by
  constructor
  · unfold integrated_source integrated_source_constant
    rfl
  · unfold end_of_ray_source
    rfl

/-- C13: over exact arithmetic the operations commute on the accumulator.
`integrated_source` for a first layer then a second one leaves the same
accumulator as the other order; `end_of_ray_source` before or after an
`integrated_source` call leaves the same accumulator; and for each operation
the increment of every component and the failure, if any, are the same from
two different prior accumulators. -/
theorem source_operations_commute {NSTOKES : Nat}
    (MINIMUM_SHELL_SIZE_M : ℚ) (self : EmissionSource NSTOKES)
    (wavelidx1 losidx1 layeridx1 wavel_threadidx1 threadidx1 : Int)
    (layer1 : SphericalLayer) (shell_od1 : SparseODDualView)
    (wavelidx2 losidx2 layeridx2 wavel_threadidx2 threadidx2 : Int)
    (layer2 : SphericalLayer) (shell_od2 : SparseODDualView)
    (wavelidx3 losidx3 wavel_threadidx3 threadidx3 : Int)
    (source other : Dual NSTOKES) (i : Fin NSTOKES) :
    ((integrated_source MINIMUM_SHELL_SIZE_M self wavelidx2 losidx2 layeridx2
          wavel_threadidx2 threadidx2 layer2 shell_od2
          (integrated_source MINIMUM_SHELL_SIZE_M self wavelidx1 losidx1 layeridx1
            wavel_threadidx1 threadidx1 layer1 shell_od1 source).source).source =
        (integrated_source MINIMUM_SHELL_SIZE_M self wavelidx1 losidx1 layeridx1
          wavel_threadidx1 threadidx1 layer1 shell_od1
          (integrated_source MINIMUM_SHELL_SIZE_M self wavelidx2 losidx2 layeridx2
            wavel_threadidx2 threadidx2 layer2 shell_od2 source).source).source) ∧
      ((end_of_ray_source self wavelidx3 losidx3 wavel_threadidx3 threadidx3
          (integrated_source MINIMUM_SHELL_SIZE_M self wavelidx1 losidx1 layeridx1
            wavel_threadidx1 threadidx1 layer1 shell_od1 source).source).source =
        (integrated_source MINIMUM_SHELL_SIZE_M self wavelidx1 losidx1 layeridx1
          wavel_threadidx1 threadidx1 layer1 shell_od1
          (end_of_ray_source self wavelidx3 losidx3 wavel_threadidx3 threadidx3
            source).source).source) ∧
      ((integrated_source MINIMUM_SHELL_SIZE_M self wavelidx1 losidx1 layeridx1
            wavel_threadidx1 threadidx1 layer1 shell_od1 source).source.value i -
          source.value i =
        (integrated_source MINIMUM_SHELL_SIZE_M self wavelidx1 losidx1 layeridx1
            wavel_threadidx1 threadidx1 layer1 shell_od1 other).source.value i -
          other.value i ∧
        (integrated_source MINIMUM_SHELL_SIZE_M self wavelidx1 losidx1 layeridx1
            wavel_threadidx1 threadidx1 layer1 shell_od1 source).error =
          (integrated_source MINIMUM_SHELL_SIZE_M self wavelidx1 losidx1 layeridx1
            wavel_threadidx1 threadidx1 layer1 shell_od1 other).error) ∧
      ((end_of_ray_source self wavelidx3 losidx3 wavel_threadidx3 threadidx3
            source).source.value i - source.value i =
        (end_of_ray_source self wavelidx3 losidx3 wavel_threadidx3 threadidx3
            other).source.value i - other.value i ∧
        (end_of_ray_source self wavelidx3 losidx3 wavel_threadidx3 threadidx3
            source).error =
          (end_of_ray_source self wavelidx3 losidx3 wavel_threadidx3 threadidx3
            other).error) := by
  obtain ⟨e1, c1, h1⟩ := integrated_source_increment MINIMUM_SHELL_SIZE_M self
    wavelidx1 losidx1 layeridx1 wavel_threadidx1 threadidx1 layer1 shell_od1
  obtain ⟨e2, c2, h2⟩ := integrated_source_increment MINIMUM_SHELL_SIZE_M self
    wavelidx2 losidx2 layeridx2 wavel_threadidx2 threadidx2 layer2 shell_od2
  obtain ⟨e3, c3, _, h3⟩ := end_of_ray_source_increment self wavelidx3 losidx3
    wavel_threadidx3 threadidx3
  simp only [h1, h2, h3]
  refine ⟨?_, ?_, ⟨?_, trivial⟩, ⟨?_, trivial⟩⟩
  · rw [add_to_source_comm]
  · rw [add_to_source_comm]
  · simp only [add_to_source_eq]
    by_cases hi : i.val = 0
    · simp only [hi, if_true]
      ring
    · simp only [hi, if_false]
      ring
  · simp only [add_to_source_eq]
    by_cases hi : i.val = 0
    · simp only [hi, if_true]
      ring
    · simp only [hi, if_false]
      ring

/-- C14: for an atmosphere whose grid point `g` has `ssa = 0.5` and
`emission = 2.0`, a non-degenerate layer whose entrance and exit mappings each
reference `g` with weight 1, both quadrature fractions `0.5` and
`exp_minus_od = 0.5`, `integrated_source` on a zero-initialized accumulator
returns and yields an intensity component equal to `0.5`. -/
theorem concrete_scenario_half {NSTOKES : Nat}
    (MINIMUM_SHELL_SIZE_M : ℚ) (self : EmissionSource NSTOKES)
    (atm : Atmosphere NSTOKES) (g : Int)
    (wavelidx losidx layeridx wavel_threadidx threadidx : Int)
    (layer : SphericalLayer) (shell_od : SparseODDualView) (source : Dual NSTOKES)
    (i : Fin NSTOKES)
    (hbound : self.m_atmosphere = some atm)
    (hssa : atm.storage.ssa g wavelidx = 1 / 2)
    (hemission : atm.storage.emission_source g wavelidx = 2)
    (hdist : MINIMUM_SHELL_SIZE_M ≤ layer.layer_distance)
    (hentrance : layer.entrance.interpolation_weights = [(g, 1)])
    (hexit : layer.exit.interpolation_weights = [(g, 1)])
    (hstart : layer.od_quad_start_fraction = 1 / 2)
    (hend : layer.od_quad_end_fraction = 1 / 2)
    (hod : shell_od.exp_minus_od = 1 / 2)
    (hzero : ∀ j, source.value j = 0)
    (hi : i.val = 0) :
    (integrated_source MINIMUM_SHELL_SIZE_M self wavelidx losidx layeridx
        wavel_threadidx threadidx layer shell_od source).error = none ∧
      (integrated_source MINIMUM_SHELL_SIZE_M self wavelidx losidx layeridx
        wavel_threadidx threadidx layer shell_od source).source.value i =
        1 / 2 := by
  unfold integrated_source
  rw [if_neg (not_lt.mpr hdist),
    integrated_source_constant_bound self atm _ _ _ _ _ _ _ _ hbound]
  refine ⟨rfl, ?_⟩
  simp only []
  rw [add_to_source_intensity _ _ i hi, hzero, bracket_term, hentrance, hexit,
    hstart, hend, hod]
  simp only [boundary_sum, List.map_cons, List.map_nil, List.sum_cons,
    List.sum_nil, hssa, hemission]
  norm_num

/-- Witness of C14: the sample grid, layer and view on the zero-initialized
accumulator with three Stokes components. -/
theorem concrete_scenario_half_witness :
    (integrated_source (1 / 10000) sample_component 0 0 0 0 0 sample_layer
        sample_od zero_source).error = none ∧
      (integrated_source (1 / 10000) sample_component 0 0 0 0 0 sample_layer
        sample_od zero_source).source.value 0 = 1 / 2 :=
  concrete_scenario_half (1 / 10000) sample_component sample_atmosphere 0
    0 0 0 0 0 sample_layer sample_od zero_source 0 rfl rfl rfl
    (by norm_num [sample_layer]) rfl rfl rfl rfl rfl (fun _ => rfl) rfl

/-- C15: binding replaces. `initialize_geometry` with a first ray collection
followed by `initialize_geometry` with a second one leaves the component in
the state `initialize_geometry` with the second one alone leaves it in, and
likewise for `initialize_atmosphere`; binding the same dependency twice is
binding it once; `initialize_geometry` leaves the atmosphere binding unchanged
and `initialize_atmosphere` leaves the geometry binding unchanged. -/
theorem binding_replaces {NSTOKES : Nat} (self : EmissionSource NSTOKES)
    (r1 r2 : List TracedRay) (a1 a2 : Atmosphere NSTOKES) :
    initialize_geometry (initialize_geometry self r1) r2 =
        initialize_geometry self r2 ∧
      initialize_atmosphere (initialize_atmosphere self a1) a2 =
        initialize_atmosphere self a2 ∧
      initialize_geometry (initialize_geometry self r2) r2 =
        initialize_geometry self r2 ∧
      initialize_atmosphere (initialize_atmosphere self a2) a2 =
        initialize_atmosphere self a2 ∧
      (initialize_geometry self r1).m_los_rays = some r1 ∧
      (initialize_atmosphere self a1).m_atmosphere = some a1 ∧
      (initialize_geometry self r1).m_atmosphere = self.m_atmosphere ∧
      (initialize_atmosphere self a1).m_los_rays = self.m_los_rays := by
  unfold initialize_geometry initialize_atmosphere
  exact ⟨rfl, rfl, rfl, rfl, rfl, rfl, rfl, rfl⟩

/-- C16: with the atmosphere bound, on a non-degenerate layer: when the
entrance mapping is empty `integrated_source` adds
`(1 - exp_minus_od) * ((1 - ssaEnd) * emissionEnd * od_quad_end_fraction)` to
the intensity component; when the exit mapping is empty it adds
`(1 - exp_minus_od) * ((1 - ssaStart) * emissionStart *
od_quad_start_fraction)`; when both mappings are empty it hands the
accumulator back unchanged; and the loop over an empty mapping leaves both
boundary quantities at zero. -/
theorem empty_mapping_contributes_nothing {NSTOKES : Nat}
    (MINIMUM_SHELL_SIZE_M : ℚ) (self : EmissionSource NSTOKES)
    (atm : Atmosphere NSTOKES)
    (wavelidx losidx layeridx wavel_threadidx threadidx : Int)
    (layer : SphericalLayer) (shell_od : SparseODDualView) (source : Dual NSTOKES)
    (i : Fin NSTOKES)
    (hbound : self.m_atmosphere = some atm)
    (hdist : MINIMUM_SHELL_SIZE_M ≤ layer.layer_distance)
    (hi : i.val = 0) :
    (layer.entrance.interpolation_weights = [] →
        (integrated_source MINIMUM_SHELL_SIZE_M self wavelidx losidx layeridx
          wavel_threadidx threadidx layer shell_od source).error = none ∧
        (integrated_source MINIMUM_SHELL_SIZE_M self wavelidx losidx layeridx
          wavel_threadidx threadidx layer shell_od source).source.value i =
          source.value i +
            (1 - shell_od.exp_minus_od) *
              ((1 - boundary_sum atm.storage.ssa wavelidx
                  layer.exit.interpolation_weights) *
                boundary_sum atm.storage.emission_source wavelidx
                  layer.exit.interpolation_weights *
                layer.od_quad_end_fraction)) ∧
      (layer.exit.interpolation_weights = [] →
        (integrated_source MINIMUM_SHELL_SIZE_M self wavelidx losidx layeridx
          wavel_threadidx threadidx layer shell_od source).error = none ∧
        (integrated_source MINIMUM_SHELL_SIZE_M self wavelidx losidx layeridx
          wavel_threadidx threadidx layer shell_od source).source.value i =
          source.value i +
            (1 - shell_od.exp_minus_od) *
              ((1 - boundary_sum atm.storage.ssa wavelidx
                  layer.entrance.interpolation_weights) *
                boundary_sum atm.storage.emission_source wavelidx
                  layer.entrance.interpolation_weights *
                layer.od_quad_start_fraction)) ∧
      (layer.entrance.interpolation_weights = [] →
        layer.exit.interpolation_weights = [] →
        integrated_source MINIMUM_SHELL_SIZE_M self wavelidx losidx layeridx
          wavel_threadidx threadidx layer shell_od source = ⟨none, source⟩) ∧
      boundary_loop self.m_atmosphere wavelidx [] 0 0 = .ok (0, 0) := by
  unfold integrated_source
  rw [if_neg (not_lt.mpr hdist)]
  refine ⟨?_, ?_, ?_, boundary_loop_nil _ _ _ _⟩
  · intro hentrance
    rw [integrated_source_constant_bound self atm _ _ _ _ _ _ _ _ hbound]
    refine ⟨rfl, ?_⟩
    simp only []
    rw [add_to_source_intensity _ _ i hi, bracket_term, hentrance,
      boundary_sum_nil, boundary_sum_nil]
    ring
  · intro hexit
    rw [integrated_source_constant_bound self atm _ _ _ _ _ _ _ _ hbound]
    refine ⟨rfl, ?_⟩
    simp only []
    rw [add_to_source_intensity _ _ i hi, bracket_term, hexit,
      boundary_sum_nil, boundary_sum_nil]
    ring
  · intro hentrance hexit
    exact integrated_source_constant_unmapped _ _ _ _ _ _ _ _ _ hentrance hexit

/-- Witness of C16: the layer without entrance mapping, the layer without exit
mapping and the layer without any mapping. -/
theorem empty_mapping_contributes_nothing_witness :
    ((integrated_source (1 / 10000) sample_component 0 0 0 0 0 exit_only_layer
          sample_od sample_source).error = none ∧
        (integrated_source (1 / 10000) sample_component 0 0 0 0 0 exit_only_layer
          sample_od sample_source).source.value 0 =
          sample_source.value 0 +
            (1 - sample_od.exp_minus_od) *
              ((1 - boundary_sum sample_atmosphere.storage.ssa 0
                  exit_only_layer.exit.interpolation_weights) *
                boundary_sum sample_atmosphere.storage.emission_source 0
                  exit_only_layer.exit.interpolation_weights *
                exit_only_layer.od_quad_end_fraction)) ∧
      ((integrated_source (1 / 10000) sample_component 0 0 0 0 0
          entrance_only_layer sample_od sample_source).error = none ∧
        (integrated_source (1 / 10000) sample_component 0 0 0 0 0
          entrance_only_layer sample_od sample_source).source.value 0 =
          sample_source.value 0 +
            (1 - sample_od.exp_minus_od) *
              ((1 - boundary_sum sample_atmosphere.storage.ssa 0
                  entrance_only_layer.entrance.interpolation_weights) *
                boundary_sum sample_atmosphere.storage.emission_source 0
                  entrance_only_layer.entrance.interpolation_weights *
                entrance_only_layer.od_quad_start_fraction)) ∧
      integrated_source (1 / 10000) sample_component 0 0 0 0 0 unmapped_layer
        sample_od sample_source = ⟨none, sample_source⟩ :=
  ⟨(empty_mapping_contributes_nothing (1 / 10000) sample_component
      sample_atmosphere 0 0 0 0 0 exit_only_layer sample_od sample_source 0 rfl
      (by norm_num [exit_only_layer, sample_layer]) rfl).1 rfl,
    (empty_mapping_contributes_nothing (1 / 10000) sample_component
      sample_atmosphere 0 0 0 0 0 entrance_only_layer sample_od sample_source 0
      rfl (by norm_num [entrance_only_layer, sample_layer]) rfl).2.1 rfl,
    (empty_mapping_contributes_nothing (1 / 10000) sample_component
      sample_atmosphere 0 0 0 0 0 unmapped_layer sample_od sample_source 0 rfl
      (by norm_num [unmapped_layer, sample_layer]) rfl).2.2.1 rfl rfl⟩

/-- C18: with the ray collection bound, `end_of_ray_source` called with a
line-of-sight index that is negative or at least the size of the collection
fails with the out-of-range failure and leaves the accumulator unchanged,
whatever the rays of the collection are and whether the atmosphere is bound or
not. -/
theorem end_of_ray_source_out_of_range {NSTOKES : Nat}
    (self : EmissionSource NSTOKES) (los_rays : List TracedRay)
    (wavelidx losidx wavel_threadidx threadidx : Int) (source : Dual NSTOKES)
    (hrays : self.m_los_rays = some los_rays)
    (hout : losidx < 0 ∨ (los_rays.length : Int) ≤ losidx) :
    end_of_ray_source self wavelidx losidx wavel_threadidx threadidx source =
      ⟨some .out_of_range, source⟩ := by
  unfold end_of_ray_source
  simp only [hrays, vector_at_out_of_range los_rays losidx hout]

/-- Witness of C18: a collection whose only ray does not hit the ground, read
at index 1 and at index -1. -/
theorem end_of_ray_source_out_of_range_witness :
    (∀ ray ∈ limb_rays, ray.ground_is_hit = false) ∧
      end_of_ray_source limb_component 0 1 0 0 sample_source =
        ⟨some .out_of_range, sample_source⟩ ∧
      end_of_ray_source limb_component 0 (-1) 0 0 sample_source =
        ⟨some .out_of_range, sample_source⟩ :=
  ⟨by simp [limb_rays],
    end_of_ray_source_out_of_range limb_component limb_rays 0 1 0 0
      sample_source rfl (Or.inr (by decide)),
    end_of_ray_source_out_of_range limb_component limb_rays 0 (-1) 0 0
      sample_source rfl (Or.inl (by decide))⟩

/-- C19: the contribution of `integrated_source` is linear in the emission
field at fixed `ssa`. For three components bound to atmospheres that have the
same `ssa` at the wavelength and emission fields `e1`, `e2` and
`c1*e1 + c2*e2`, the increment of the intensity component for the third equals
`c1` times the increment for the first plus `c2` times the increment for the
second, for every layer and optical-depth view. -/
theorem integrated_source_linear_in_emission {NSTOKES : Nat}
    (MINIMUM_SHELL_SIZE_M : ℚ) (self1 self2 self3 : EmissionSource NSTOKES)
    (atm1 atm2 atm3 : Atmosphere NSTOKES) (c1 c2 : ℚ)
    (wavelidx losidx layeridx wavel_threadidx threadidx : Int)
    (layer : SphericalLayer) (shell_od : SparseODDualView) (source : Dual NSTOKES)
    (i : Fin NSTOKES)
    (hbound1 : self1.m_atmosphere = some atm1)
    (hbound2 : self2.m_atmosphere = some atm2)
    (hbound3 : self3.m_atmosphere = some atm3)
    (hssa1 : ∀ g, atm1.storage.ssa g wavelidx = atm3.storage.ssa g wavelidx)
    (hssa2 : ∀ g, atm2.storage.ssa g wavelidx = atm3.storage.ssa g wavelidx)
    (hcomb : ∀ g, atm3.storage.emission_source g wavelidx =
      c1 * atm1.storage.emission_source g wavelidx +
        c2 * atm2.storage.emission_source g wavelidx)
    (hi : i.val = 0) :
    (integrated_source MINIMUM_SHELL_SIZE_M self3 wavelidx losidx layeridx
          wavel_threadidx threadidx layer shell_od source).source.value i -
        source.value i =
      c1 * ((integrated_source MINIMUM_SHELL_SIZE_M self1 wavelidx losidx layeridx
            wavel_threadidx threadidx layer shell_od source).source.value i -
          source.value i) +
        c2 * ((integrated_source MINIMUM_SHELL_SIZE_M self2 wavelidx losidx
            layeridx wavel_threadidx threadidx layer shell_od source).source.value i -
          source.value i) := by
  unfold integrated_source
  split
  · simp only [sub_self]
    ring
  · rw [integrated_source_constant_bound self1 atm1 _ _ _ _ _ _ _ _ hbound1,
      integrated_source_constant_bound self2 atm2 _ _ _ _ _ _ _ _ hbound2,
      integrated_source_constant_bound self3 atm3 _ _ _ _ _ _ _ _ hbound3]
    simp only [add_to_source_intensity _ _ i hi, bracket_term]
    rw [boundary_sum_congr _ _ _ layer.entrance.interpolation_weights hssa1,
      boundary_sum_congr _ _ _ layer.entrance.interpolation_weights hssa2,
      boundary_sum_congr _ _ _ layer.exit.interpolation_weights hssa1,
      boundary_sum_congr _ _ _ layer.exit.interpolation_weights hssa2,
      boundary_sum_linear _ _ _ c1 c2 _ layer.entrance.interpolation_weights hcomb,
      boundary_sum_linear _ _ _ c1 c2 _ layer.exit.interpolation_weights hcomb]
    ring

/-- Witness of C19: the combined grid has emission `3 * 2 + 5 * 4`. -/
theorem integrated_source_linear_in_emission_witness :
    (∀ g : Int, combined_atmosphere.storage.emission_source g 0 =
        3 * sample_atmosphere.storage.emission_source g 0 +
          5 * second_atmosphere.storage.emission_source g 0) ∧
      (integrated_source (1 / 10000) combined_component 0 0 0 0 0 sample_layer
            sample_od sample_source).source.value 0 - sample_source.value 0 =
        3 * ((integrated_source (1 / 10000) sample_component 0 0 0 0 0
              sample_layer sample_od sample_source).source.value 0 -
            sample_source.value 0) +
          5 * ((integrated_source (1 / 10000) second_component 0 0 0 0 0
              sample_layer sample_od sample_source).source.value 0 -
            sample_source.value 0) :=
  ⟨fun _ => by norm_num [combined_atmosphere, sample_atmosphere, second_atmosphere],
    integrated_source_linear_in_emission (1 / 10000) sample_component
      second_component combined_component sample_atmosphere second_atmosphere
      combined_atmosphere 3 5 0 0 0 0 0 sample_layer sample_od sample_source 0
      rfl rfl rfl (fun _ => rfl) (fun _ => rfl)
      (fun _ => by norm_num [combined_atmosphere, sample_atmosphere,
        second_atmosphere]) rfl⟩

end emission

end sasktran2
